import Mathlib

/-!
Shallow embedding of the PyodideSemanticWorkflow scripts
(`src/sum_mm.py`, `src/workflows/calculate_average.py`,
`src/workflows/load_csvw_column.py`).

Modelling conventions:
* An rdflib node is `Node`: an IRI, a blank node, or a literal.  A literal
  is modelled by its observable behaviour under Python `float(...)`: a
  literal whose text parses as a float is `litNum q` carrying the exact
  rational value, any other literal is `litStr s` carrying its text
  (Python floats are modelled exactly by rationals).
* An rdflib `Graph` is an insertion-ordered duplicate-free list of
  triples; `Graph.add` appends a triple unless it is already present,
  matching rdflib set semantics; iteration order of `subjects`/`objects`
  is insertion order (rdflib stores triples in insertion-ordered dicts).
* `g.value(s, p)` returns the object of the first matching triple.
* `uuid.uuid4().hex` results and the sha256-based execution hash are
  nondeterministic / irreversible computations; they enter the model as
  explicit parameters (`resName`, `annName`, `hashFn`).
* Parsing of Turtle input is abstracted to an `Except String Graph`
  argument: `.error e` models a parse failure with exception text `e`.
-/

inductive Node where
  | uri (s : String)
  | bnode (id : Nat)
  | litNum (q : ℚ)
  | litStr (s : String)
deriving DecidableEq, Repr

abbrev Triple := Node × Node × Node

abbrev Graph := List Triple

/-- Python `str(node)`: the IRI text, the blank node id, or the literal text. -/
def nodeStr : Node → String
  | .uri s => s
  | .bnode n => "N" ++ toString n
  | .litNum q => toString q
  | .litStr s => s

/-- Python truthiness of an rdflib node (`URIRef`/`Literal` subclass `str`,
so emptiness decides truthiness; a parseable-as-float literal has nonempty
text). -/
def Node.truthy : Node → Bool
  | .uri s => s ≠ ""
  | .bnode _ => true
  | .litNum _ => true
  | .litStr s => s ≠ ""

/-- Python `float(node)`: succeeds exactly on literals whose text parses
as a float (constructor `litNum`). -/
def pyFloat : Node → Option ℚ
  | .litNum q => some q
  | _ => none

/-- Python `str(x)` applied to `g.value(...)` results: `str(None) = "None"`. -/
def pyStr : Option Node → String
  | none => "None"
  | some n => nodeStr n

/-- Python `str.lower()` restricted to ASCII case mapping, which agrees
with Python on every string this development feeds it (the only cased
non-ASCII character in play, "Â", never influences a lookup result). -/
def pyLower (s : String) : String :=
  ⟨s.data.map Char.toLower⟩

/-- All objects of triples `(s, p, _)`, in insertion order (before
dict-key dedup). -/
def Graph.triplesSP (g : Graph) (s p : Node) : List Node :=
  (g.filter (fun t => decide (t.1 = s ∧ t.2.1 = p))).map (fun t => t.2.2)

/-- All subjects of triples `(_, p, o)`, in insertion order. -/
def Graph.triplesPO (g : Graph) (p o : Node) : List Node :=
  (g.filter (fun t => decide (t.2.1 = p ∧ t.2.2 = o))).map (fun t => t.1)

/-- Keep the first occurrence of each element, tracking what was seen. -/
def firstDedupAux {α : Type} [DecidableEq α] (seen : List α) : List α → List α
  | [] => []
  | x :: r => if x ∈ seen then firstDedupAux seen r
              else x :: firstDedupAux (x :: seen) r

/-- Keep the first occurrence of each element (insertion-ordered dict keys). -/
def firstDedup {α : Type} [DecidableEq α] (l : List α) : List α :=
  firstDedupAux [] l

/-- rdflib `g.objects(s, p)`. -/
def Graph.objectsOf (g : Graph) (s p : Node) : List Node :=
  firstDedup (g.triplesSP s p)

/-- rdflib `g.subjects(p, o)`. -/
def Graph.subjectsOf (g : Graph) (p o : Node) : List Node :=
  firstDedup (g.triplesPO p o)

/-- rdflib `g.value(s, p)`: object of the first matching triple, else `None`. -/
def Graph.value (g : Graph) (s p : Node) : Option Node :=
  (g.triplesSP s p).head?

/-- rdflib `g.add(triple)`: set insertion, appending new triples. -/
def Graph.add (g : Graph) (t : Triple) : Graph :=
  if t ∈ g then g else g ++ [t]

/-- A sequence of `g.add(...)` statements. -/
def Graph.addAll (g : Graph) (ts : List Triple) : Graph :=
  ts.foldl Graph.add g

/-- `(s, p, anything) in g` used for the `correspondsToVariable` wildcard test. -/
def Graph.hasSP (g : Graph) (s p : Node) : Bool :=
  g.any (fun t => decide (t.1 = s ∧ t.2.1 = p))

/-- A node occurring anywhere in a graph. -/
def occursIn (g : Graph) (n : Node) : Prop :=
  ∃ t ∈ g, t.1 = n ∨ t.2.1 = n ∨ t.2.2 = n

instance (g : Graph) (n : Node) : Decidable (occursIn g n) := by
  unfold occursIn; infer_instance

instance {ε α : Type} [DecidableEq ε] [DecidableEq α] : DecidableEq (Except ε α)
  | .error a, .error b =>
    if h : a = b then isTrue (by rw [h])
    else isFalse (fun hc => h (Except.error.inj hc))
  | .error _, .ok _ => isFalse (fun hc => Except.noConfusion hc)
  | .ok _, .error _ => isFalse (fun hc => Except.noConfusion hc)
  | .ok a, .ok b =>
    if h : a = b then isTrue (by rw [h])
    else isFalse (fun hc => h (Except.ok.inj hc))

/-! Vocabulary constants (the fixed IRIs bound in every script). -/

def RDF_type : Node := .uri "http://www.w3.org/1999/02/22-rdf-syntax-ns#type"
def RDF_value : Node := .uri "http://www.w3.org/1999/02/22-rdf-syntax-ns#value"
def RDFS_label : Node := .uri "http://www.w3.org/2000/01/rdf-schema#label"
def PROV_Activity : Node := .uri "http://www.w3.org/ns/prov#Activity"
def PROV_Entity : Node := .uri "http://www.w3.org/ns/prov#Entity"
def PROV_Collection : Node := .uri "http://www.w3.org/ns/prov#Collection"
def PROV_used : Node := .uri "http://www.w3.org/ns/prov#used"
def PROV_hadMember : Node := .uri "http://www.w3.org/ns/prov#hadMember"
def PROV_wasGeneratedBy : Node := .uri "http://www.w3.org/ns/prov#wasGeneratedBy"
def PROV_wasDerivedFrom : Node := .uri "http://www.w3.org/ns/prov#wasDerivedFrom"
def QUDT_QuantityValue : Node := .uri "http://qudt.org/schema/qudt/QuantityValue"
def QUDT_numericValue : Node := .uri "http://qudt.org/schema/qudt/numericValue"
def QUDT_unit : Node := .uri "http://qudt.org/schema/qudt/unit"
def UNIT_MilliM : Node := .uri "http://qudt.org/vocab/unit/MilliM"
def UNIT_M : Node := .uri "http://qudt.org/vocab/unit/M"
def UNIT_CentiM : Node := .uri "http://qudt.org/vocab/unit/CentiM"
def UNIT_KiloGM : Node := .uri "http://qudt.org/vocab/unit/KiloGM"
def UNIT_GM : Node := .uri "http://qudt.org/vocab/unit/GM"
def UNIT_SEC : Node := .uri "http://qudt.org/vocab/unit/SEC"
def UNIT_DEG_C : Node := .uri "http://qudt.org/vocab/unit/DEG_C"
def UNIT_K : Node := .uri "http://qudt.org/vocab/unit/K"
def OA_Ann : Node := .uri "http://www.w3.org/ns/oa#Annotation"
def OA_TextualBody : Node := .uri "http://www.w3.org/ns/oa#TextualBody"
def OA_hasBody : Node := .uri "http://www.w3.org/ns/oa#hasBody"
def OA_hasTarget : Node := .uri "http://www.w3.org/ns/oa#hasTarget"
def OA_motivatedBy : Node := .uri "http://www.w3.org/ns/oa#motivatedBy"
def EX_errorReporting : Node := .uri "https://github.com/ThHanke/PyodideSemanticWorkflow/errorReporting"
def EX_errorCode : Node := .uri "https://github.com/ThHanke/PyodideSemanticWorkflow/errorCode"
def EX_valueCount : Node := .uri "https://github.com/ThHanke/PyodideSemanticWorkflow/valueCount"
def EX_calculationMethod : Node := .uri "https://github.com/ThHanke/PyodideSemanticWorkflow/calculationMethod"
def EX_minValue : Node := .uri "https://github.com/ThHanke/PyodideSemanticWorkflow/minValue"
def EX_maxValue : Node := .uri "https://github.com/ThHanke/PyodideSemanticWorkflow/maxValue"
def EX_sourceColumn : Node := .uri "https://github.com/ThHanke/PyodideSemanticWorkflow/sourceColumn"
def EX_columnTitle : Node := .uri "https://github.com/ThHanke/PyodideSemanticWorkflow/columnTitle"
def PPLAN_ctv : Node := .uri "http://purl.org/net/p-plan#correspondsToVariable"
def BFO_is_input_of : Node := .uri "https://example.org/bfo/is_input_of"

/-! ## `_add_error` (shared shape of all three scripts)

Triples added by `_add_error(g, activity, message, code)`, in the order
of the Python `g.add` statements.  `ann` is the annotation IRI
(`#errorAnn_<uuid hex>` in `sum_mm.py`, `#errorAnn_<execution hash>` in
the two workflow scripts) and `body` the freshly created `BNode()`. -/

def errTriples (ann body : Node) (act : Option Node) (msg : String)
    (code : Option String) : List Triple :=
  [(ann, RDF_type, OA_Ann),
   (ann, OA_motivatedBy, EX_errorReporting),
   (ann, OA_hasBody, body)]
  ++ (match act with
      | some a => [(ann, OA_hasTarget, a), (ann, PROV_wasGeneratedBy, a)]
      | none => [])
  ++ [(body, RDF_type, OA_TextualBody),
      (body, RDF_value, Node.litStr msg)]
  ++ (match code with
      | some c => [(body, EX_errorCode, Node.litStr c)]
      | none => [])

def add_error (g : Graph) (act : Option Node) (msg : String)
    (code : Option String) (ann body : Node) : Graph :=
  g.addAll (errTriples ann body act msg code)

/-! ## `src/sum_mm.py` -/

/-- The outcome of one script invocation: the returned graph, the error
code passed to `_add_error` on the early-return branch taken (`none` on
the success branch), and the freshly created result node on success.
The Python functions return only the serialized graph; the two extra
fields record which `return` statement executed. -/
structure RunOut where
  graph : Graph
  errCode : Option String
  result : Option Node
deriving DecidableEq, Repr

/-- `next(g.subjects(RDF.type, PROV.Activity), None)`. -/
def firstActivity (g : Graph) : Option Node :=
  (g.subjectsOf RDF_type PROV_Activity).head?

/-- Inputs of the sum step: subjects of `bfo:is_input_of activity` that
are typed `qudt:QuantityValue`. -/
def sumInputs (g : Graph) (act : Node) : List Node :=
  (g.subjectsOf BFO_is_input_of act).filter
    (fun qv => decide ((qv, RDF_type, QUDT_QuantityValue) ∈ g))

/-- The value/unit extraction loop of `sum_mm.run` (step 3): on the first
input whose `qudt:numericValue` is missing or does not parse as a float
the loop returns early with the corresponding message and code; otherwise
it returns the float values and the encountered units in order (the
Python `set` is modelled as the insertion-ordered `firstDedup` applied by
the caller). -/
def sumExtract (g : Graph) : List Node → Except (String × String) (List ℚ × List Node)
  | [] => .ok ([], [])
  | qv :: rest =>
    match g.value qv QUDT_numericValue with
    | none =>
      .error ("Input " ++ nodeStr qv ++ " has no qudt:numericValue",
              "MISSING_NUMERIC_VALUE")
    | some num =>
      match pyFloat num with
      | none =>
        .error ("Input " ++ nodeStr qv ++ " has a non-numeric qudt:numericValue: "
                  ++ nodeStr num,
                "NON_NUMERIC_VALUE")
      | some v =>
        match sumExtract g rest with
        | .error e => .error e
        | .ok (vs, us) =>
          .ok (v :: vs,
               match g.value qv QUDT_unit with
               | some u => u :: us
               | none => us)

/-- Data assembled by a successful pass of `sum_mm.run`. -/
structure SumData where
  activity : Node
  inputs : List Node
  values : List ℚ
  unitIri : Node
deriving Repr

/-- Steps 1–4 of `sum_mm.run` (everything up to the result insertion),
with each early `return`-with-error branch as an `Except.error` carrying
the activity, message and error code arguments of the `_add_error` call. -/
def sumCompute (g : Graph) : Except (Option Node × String × String) SumData :=
  match firstActivity g with
  | none => .error (none, "No prov:Activity found in graph", "NO_ACTIVITY")
  | some act =>
    if (sumInputs g act).length < 2 then
      .error (some act,
              "Expected at least two qudt:QuantityValue inputs linked via bfo:is_input_of",
              "INPUT_TOO_FEW")
    else
      match sumExtract g (sumInputs g act) with
      | .error (msg, code) => .error (some act, msg, code)
      | .ok (vs, us) =>
        if 1 < (firstDedup us).length then
          .error (some act,
                  "Inputs have different units: "
                    ++ String.intercalate ", " ((firstDedup us).map nodeStr),
                  "UNIT_MISMATCH")
        else
          .ok { activity := act, inputs := sumInputs g act, values := vs,
                unitIri := (firstDedup us).head?.getD UNIT_MilliM }

/-- Result triples of step 5 of `sum_mm.run`, in `g.add` order. -/
def sumResultTriples (res : Node) (d : SumData) : List Triple :=
  [(res, RDF_type, QUDT_QuantityValue),
   (res, QUDT_numericValue, Node.litNum (d.values.foldl (· + ·) 0)),
   (res, QUDT_unit, d.unitIri),
   (res, PROV_wasGeneratedBy, d.activity)]
  ++ d.inputs.map (fun qv => (res, PROV_wasDerivedFrom, qv))

/-- `sum_mm.run` on an already-parsed graph.  `annName` is the uuid hex of
the error-annotation IRI, `bodyId` the fresh `BNode`, `resName` the uuid
hex of the result IRI. -/
def sumRunParsed (g : Graph) (annName : String) (bodyId : Nat)
    (resName : String) : RunOut :=
  match sumCompute g with
  | .error (act, msg, code) =>
    { graph := add_error g act msg (some code)
        (Node.uri ("#errorAnn_" ++ annName)) (Node.bnode bodyId),
      errCode := some code, result := none }
  | .ok d =>
    let res := Node.uri ("#sumResult_" ++ resName)
    { graph := g.addAll (sumResultTriples res d),
      errCode := none, result := some res }

/-- `sum_mm.run`: parse, then either the fresh parse-error graph or the
parsed-graph pass. -/
def sumRun (parsed : Except String Graph) (annName : String) (bodyId : Nat)
    (resName : String) : RunOut :=
  match parsed with
  | .error e =>
    { graph := add_error [] none ("Failed to parse input graph: " ++ e)
        (some "PARSE_ERROR") (Node.uri ("#errorAnn_" ++ annName)) (Node.bnode bodyId),
      errCode := some "PARSE_ERROR", result := none }
  | .ok g => sumRunParsed g annName bodyId resName

/-! ## `src/workflows/calculate_average.py` -/

/-- Python string sort (`sorted`): insertion sort by `≤`. -/
def insertSorted (s : String) : List String → List String
  | [] => [s]
  | t :: r => if s ≤ t then s :: t :: r else t :: insertSorted s r

def sortStrings (l : List String) : List String :=
  l.foldr insertSorted []

/-- `create_execution_hash(activity_iri, *input_iris)`: sha256 of the
activity IRI concatenated with the sorted input IRIs, truncated to 16 hex
digits.  The sha256 step is the abstract `hashFn` parameter. -/
def create_execution_hash (hashFn : String → String) (activity_iri : String)
    (input_iris : List String) : String :=
  hashFn (activity_iri ++ String.join (sortStrings input_iris))

/-- `create_deterministic_iri(prefix, execution_hash)`. -/
def create_deterministic_iri (pre execution_hash : String) : Node :=
  Node.uri ("#" ++ pre ++ "_" ++ execution_hash)

/-- `cleanup_previous_result(g, result_iri)`: remove every triple having
the result IRI as subject or as object. -/
def cleanup_previous_result (g : Graph) (res : Node) : Graph :=
  g.filter (fun t => decide (¬ (t.1 = res ∨ t.2.2 = res)))

/-- The qualifying inputs of the average step: objects of
`activity prov:used _` that are typed `prov:Collection` and carry a
`p-plan:correspondsToVariable` triple. -/
def avgInputs (g : Graph) (act : Node) : List Node :=
  (g.objectsOf act PROV_used).filter
    (fun e => decide ((e, RDF_type, PROV_Collection) ∈ g) && g.hasSP e PPLAN_ctv)

/-- The member extraction loop of `calculate_average.run`: each member's
value comes from `qudt:numericValue`, or failing that `rdf:value`;
missing or non-float values return early with the matching code; units
are collected in encounter order. -/
def avgExtract (g : Graph) : List Node → Except (String × String) (List ℚ × List Node)
  | [] => .ok ([], [])
  | m :: rest =>
    match (g.value m QUDT_numericValue).orElse (fun _ => g.value m RDF_value) with
    | none =>
      .error ("Member " ++ nodeStr m ++ " has no qudt:numericValue or rdf:value",
              "MISSING_NUMERIC_VALUE")
    | some num =>
      match pyFloat num with
      | none =>
        .error ("Member " ++ nodeStr m ++ " has non-numeric value " ++ nodeStr num,
                "NON_NUMERIC_VALUE")
      | some v =>
        match avgExtract g rest with
        | .error e => .error e
        | .ok (vs, us) =>
          .ok (v :: vs,
               match g.value m QUDT_unit with
               | some u => u :: us
               | none => us)

/-- `statistics.mean(values)`: raises exactly on empty data, otherwise
the exact arithmetic mean (Python computes it exactly, too). -/
def pyMean : List ℚ → Option ℚ
  | [] => none
  | vs => some ((vs.foldl (· + ·) 0) / vs.length)

/-- Python `min(values)` on a nonempty list (the script only reaches it
with at least one value; the `[]` default is never used there). -/
def pyMin : List ℚ → ℚ
  | [] => 0
  | v :: r => r.foldl min v

/-- Python `max(values)` on a nonempty list. -/
def pyMax : List ℚ → ℚ
  | [] => 0
  | v :: r => r.foldl max v

/-- Data assembled by a successful pass of `calculate_average.run`. -/
structure AvgData where
  collection : Node
  values : List ℚ
  unitIri : Option Node
  average : ℚ
deriving Repr

/-- The validation/computation part of `calculate_average.run`, with each
early `return`-with-error branch as an `Except.error` carrying the
message and code of the `_add_error` call (every such call there passes
the activity). -/
def avgCompute (g : Graph) (act : Node) : Except (String × String) AvgData :=
  match avgInputs g act with
  | [] => .error ("Expected 1 PROV Collection as input. Found 0", "INPUT_TOO_FEW")
  | collection :: _ =>
    if (g.objectsOf collection PROV_hadMember).length = 0 then
      .error ("Collection has no members (prov:hadMember)", "EMPTY_COLLECTION")
    else
      match avgExtract g (g.objectsOf collection PROV_hadMember) with
      | .error e => .error e
      | .ok (vs, us) =>
        if 1 < (firstDedup us).length then
          .error ("Collection members have different units: "
                    ++ String.intercalate ", " ((firstDedup us).map nodeStr),
                  "UNIT_MISMATCH")
        else
          match pyMean vs with
          | none => .error ("Failed to calculate mean: no data", "CALCULATION_ERROR")
          | some a =>
            .ok { collection := collection, values := vs,
                  unitIri :=
                    match (firstDedup us).head? with
                    | some u => some u
                    | none => g.value collection QUDT_unit,
                  average := a }

/-- Result triples of `calculate_average.run`, in `g.add` order; the
`qudt:unit` triple is guarded by Python truthiness of `unit_iri`. -/
def avgResultTriples (res act : Node) (d : AvgData) : List Triple :=
  [(res, RDF_type, QUDT_QuantityValue),
   (res, RDF_type, PROV_Entity),
   (res, QUDT_numericValue, Node.litNum d.average)]
  ++ (match d.unitIri with
      | some u => if u.truthy then [(res, QUDT_unit, u)] else []
      | none => [])
  ++ [(res, PROV_wasGeneratedBy, act),
      (res, PROV_wasDerivedFrom, d.collection),
      (res, RDFS_label, Node.litStr ("Average of " ++ toString d.values.length ++ " values")),
      (res, EX_valueCount, Node.litNum d.values.length),
      (res, EX_calculationMethod, Node.litStr "arithmetic mean"),
      (res, EX_minValue, Node.litNum (pyMin d.values)),
      (res, EX_maxValue, Node.litNum (pyMax d.values))]

/-- `calculate_average.run` on an already-parsed graph.  The activity IRI
is the explicit second argument of the Python function. -/
def avgRunParsed (hashFn : String → String) (g : Graph) (activity_iri : String)
    (bodyId : Nat) : RunOut :=
  match avgCompute g (Node.uri activity_iri) with
  | .error (msg, code) =>
    { graph := add_error g (some (Node.uri activity_iri)) msg (some code)
        (create_deterministic_iri "errorAnn"
          (create_execution_hash hashFn activity_iri
            ((avgInputs g (Node.uri activity_iri)).map nodeStr)))
        (Node.bnode bodyId),
      errCode := some code, result := none }
  | .ok d =>
    { graph := (cleanup_previous_result g
          (create_deterministic_iri "averageResult"
            (create_execution_hash hashFn activity_iri
              ((avgInputs g (Node.uri activity_iri)).map nodeStr)))).addAll
        (avgResultTriples
          (create_deterministic_iri "averageResult"
            (create_execution_hash hashFn activity_iri
              ((avgInputs g (Node.uri activity_iri)).map nodeStr)))
          (Node.uri activity_iri) d),
      errCode := none,
      result := some (create_deterministic_iri "averageResult"
        (create_execution_hash hashFn activity_iri
          ((avgInputs g (Node.uri activity_iri)).map nodeStr))) }

/-- `calculate_average.run`: parse, then either the fresh parse-error
graph (whose annotation IRI uses the default execution hash "unknown")
or the parsed-graph pass. -/
def avgRun (hashFn : String → String) (parsed : Except String Graph)
    (activity_iri : String) (bodyId : Nat) : RunOut :=
  match parsed with
  | .error e =>
    { graph := add_error [] none ("Failed to parse input graph: " ++ e)
        (some "PARSE_ERROR") (create_deterministic_iri "errorAnn" "unknown")
        (Node.bnode bodyId),
      errCode := some "PARSE_ERROR", result := none }
  | .ok g => avgRunParsed hashFn g activity_iri bodyId

/-! ## `src/workflows/load_csvw_column.py` -/

/-- `needle in hay` on Python strings: substring containment. -/
def strContainsSub (hay needle : String) : Bool :=
  hay.data.tails.any (fun t => needle.data.isPrefixOf t)

/-- `map_csvw_unit_to_qudt`: a falsy (missing or empty) notation maps to
`None`; otherwise the notation is lowercased (ASCII lowering agrees with
Python for every string relevant to this table) and looked up in the
fixed table.  The table keys are written exactly as the source bytes
spell them; the degree-Celsius key is the mojibake "Â°C". -/
def map_csvw_unit_to_qudt (csvw_unit : Option String) : Option Node :=
  match csvw_unit with
  | none => none
  | some s =>
    if s = "" then none
    else
      List.lookup (pyLower s)
        [("mm", UNIT_MilliM), ("millimeter", UNIT_MilliM),
         ("m", UNIT_M), ("meter", UNIT_M),
         ("cm", UNIT_CentiM), ("centimeter", UNIT_CentiM),
         ("kg", UNIT_KiloGM), ("kilogram", UNIT_KiloGM),
         ("g", UNIT_GM), ("gram", UNIT_GM),
         ("s", UNIT_SEC), ("second", UNIT_SEC),
         ("Â°C", UNIT_DEG_C), ("celsius", UNIT_DEG_C),
         ("K", UNIT_K), ("kelvin", UNIT_K)]

/-- A value loaded from a CSV cell: the field text coerced to a float
when possible, kept as a string otherwise. -/
inductive CsvVal where
  | num (q : ℚ)
  | str (s : String)
deriving DecidableEq, Repr

/-- The `var_label` computation of the input-identification loop:
`str(g.value(var, RDFS.label)) if var else ""` after
`var = g.value(inp, P_PLAN.correspondsToVariable)`. -/
def labelOf (g : Graph) (inp : Node) : String :=
  match g.value inp PPLAN_ctv with
  | some var => if var.truthy then pyStr (g.value var RDFS_label) else ""
  | none => ""

/-- Label classification: `"metadata" in lbl or "uri" in lbl` after lowering. -/
def matchesMeta (lbl : String) : Bool :=
  strContainsSub (pyLower lbl) "metadata" || strContainsSub (pyLower lbl) "uri"

/-- Label classification of the `elif`: `"column" in lbl`. -/
def matchesCol (lbl : String) : Bool :=
  strContainsSub (pyLower lbl) "column"

/-- One iteration of the input-identification loop: a metadata/uri label
overwrites `metadata_uri` with `str(g.value(inp, RDF.value))`, otherwise
a column label overwrites `column_name`. -/
def pickStep (g : Graph) (acc : Option String × Option String) (inp : Node) :
    Option String × Option String :=
  if matchesMeta (labelOf g inp) then
    (some (pyStr (g.value inp RDF_value)), acc.2)
  else if matchesCol (labelOf g inp) then
    (acc.1, some (pyStr (g.value inp RDF_value)))
  else acc

/-- The whole input-identification loop of `load_csvw_column.run`. -/
def pickVals (g : Graph) (inputs : List Node) : Option String × Option String :=
  inputs.foldl (pickStep g) (none, none)

/-- Python falsiness of `metadata_uri` / `column_name` after the loop:
still `None`, or the empty string. -/
def pyStrOptFalsy : Option String → Bool
  | none => true
  | some s => s = ""

/-- Data produced by `load_column_from_csvw` on success: the column
values, the mapped unit IRI and the column title.  The function performs
network fetches, so it enters the model as the abstract `loadColumn`
parameter of `csvwCompute`. -/
structure ColData where
  values : List CsvVal
  unitUri : Option Node
  title : String
deriving Repr

/-- The validation part of `load_csvw_column.run`: inputs, the
too-few-inputs check, the identification loop, the missing-input check,
then the (abstract) CSVW load guarded by the general exception clause. -/
def csvwCompute (loadColumn : String → String → Except String ColData)
    (g : Graph) (inputs : List Node) :
    Except (String × String) (ColData × String) :=
  if inputs.length < 2 then
    .error ("Expected 2 inputs (metadata URI, column name). Found "
              ++ toString inputs.length,
            "INPUT_TOO_FEW")
  else
    if pyStrOptFalsy (pickVals g inputs).1 || pyStrOptFalsy (pickVals g inputs).2 then
      .error ("Could not determine metadata URI or column name from inputs",
              "MISSING_INPUT")
    else
      match loadColumn ((pickVals g inputs).1.getD "") ((pickVals g inputs).2.getD "") with
      | .error e => .error ("Failed to load column from CSVW: " ++ e, "CSVW_LOAD_ERROR")
      | .ok d => .ok (d, (pickVals g inputs).2.getD "")

/-- The per-value triples of the result loop: a numeric value with a
truthy unit becomes a `qudt:QuantityValue`, anything else a plain
`prov:Entity` with `rdf:value`; each value is linked to the collection. -/
def csvwValueTriples (rc : Node) (ehash : String) (unitUri : Option Node)
    (idx : Nat) (v : CsvVal) : List Triple :=
  let vi := create_deterministic_iri ("value" ++ toString idx) ehash
  (match v, unitUri with
   | .num q, some u =>
     if u.truthy then
       [(vi, RDF_type, QUDT_QuantityValue), (vi, RDF_type, PROV_Entity),
        (vi, QUDT_numericValue, Node.litNum q), (vi, QUDT_unit, u)]
     else [(vi, RDF_type, PROV_Entity), (vi, RDF_value, Node.litNum q)]
   | .num q, none => [(vi, RDF_type, PROV_Entity), (vi, RDF_value, Node.litNum q)]
   | .str s, _ => [(vi, RDF_type, PROV_Entity), (vi, RDF_value, Node.litStr s)])
  ++ [(rc, PROV_hadMember, vi)]

/-- All result triples of `load_csvw_column.run`, in `g.add` order. -/
def csvwResultTriples (rc act : Node) (inputs : List Node) (d : ColData)
    (column_name ehash : String) : List Triple :=
  [(rc, RDF_type, PROV_Entity),
   (rc, RDF_type, PROV_Collection),
   (rc, RDFS_label, Node.litStr ("Column data: " ++ d.title)),
   (rc, PROV_wasGeneratedBy, act)]
  ++ inputs.map (fun i => (rc, PROV_wasDerivedFrom, i))
  ++ (d.values.enum.flatMap (fun p => csvwValueTriples rc ehash d.unitUri p.1 p.2))
  ++ (match d.unitUri with
      | some u => if u.truthy then [(rc, QUDT_unit, u)] else []
      | none => [])
  ++ [(rc, EX_sourceColumn, Node.litStr column_name),
      (rc, EX_columnTitle, Node.litStr d.title),
      (rc, EX_valueCount, Node.litNum d.values.length)]

/-- `load_csvw_column.run` on an already-parsed graph. -/
def csvwRunParsed (loadColumn : String → String → Except String ColData)
    (hashFn : String → String) (g : Graph) (activity_iri : String)
    (bodyId : Nat) : RunOut :=
  match csvwCompute loadColumn g (g.subjectsOf BFO_is_input_of (Node.uri activity_iri)) with
  | .error (msg, code) =>
    { graph := add_error g (some (Node.uri activity_iri)) msg (some code)
        (create_deterministic_iri "errorAnn"
          (create_execution_hash hashFn activity_iri
            ((g.subjectsOf BFO_is_input_of (Node.uri activity_iri)).map nodeStr)))
        (Node.bnode bodyId),
      errCode := some code, result := none }
  | .ok (d, column_name) =>
    { graph := (cleanup_previous_result g
          (create_deterministic_iri "columnData"
            (create_execution_hash hashFn activity_iri
              ((g.subjectsOf BFO_is_input_of (Node.uri activity_iri)).map nodeStr)))).addAll
        (csvwResultTriples
          (create_deterministic_iri "columnData"
            (create_execution_hash hashFn activity_iri
              ((g.subjectsOf BFO_is_input_of (Node.uri activity_iri)).map nodeStr)))
          (Node.uri activity_iri) (g.subjectsOf BFO_is_input_of (Node.uri activity_iri))
          d column_name
          (create_execution_hash hashFn activity_iri
            ((g.subjectsOf BFO_is_input_of (Node.uri activity_iri)).map nodeStr))),
      errCode := none,
      result := some (create_deterministic_iri "columnData"
        (create_execution_hash hashFn activity_iri
          ((g.subjectsOf BFO_is_input_of (Node.uri activity_iri)).map nodeStr))) }

/-- `load_csvw_column.run`: parse, then either the fresh parse-error
graph or the parsed-graph pass. -/
def csvwRun (loadColumn : String → String → Except String ColData)
    (hashFn : String → String) (parsed : Except String Graph)
    (activity_iri : String) (bodyId : Nat) : RunOut :=
  match parsed with
  | .error e =>
    { graph := add_error [] none ("Failed to parse input graph: " ++ e)
        (some "PARSE_ERROR") (create_deterministic_iri "errorAnn" "unknown")
        (Node.bnode bodyId),
      errCode := some "PARSE_ERROR", result := none }
  | .ok g => csvwRunParsed loadColumn hashFn g activity_iri bodyId

/-! ## Observations used by the claims -/

/-- The output graph carries a Web-Annotation error report with the given
machine code: an `oa:Annotation` node motivated by `ex:errorReporting`
whose `oa:hasBody` is a `oa:TextualBody` carrying `ex:errorCode code`. -/
def hasErrorAnn (gr : Graph) (code : String) : Prop :=
  ∃ t ∈ gr, t.2.1 = OA_hasBody ∧
    (t.1, RDF_type, OA_Ann) ∈ gr ∧
    (t.1, OA_motivatedBy, EX_errorReporting) ∈ gr ∧
    (t.2.2, RDF_type, OA_TextualBody) ∈ gr ∧
    (t.2.2, EX_errorCode, Node.litStr code) ∈ gr

instance (gr : Graph) (code : String) : Decidable (hasErrorAnn gr code) := by
  unfold hasErrorAnn; infer_instance

/-! ## Concrete fixture graphs for witnesses and counterexamples -/

/-- The end-to-end example of the spec: two `qudt:QuantityValue`s of
2.0 mm and 3.0 mm linked to one activity via `bfo:is_input_of`. -/
def gSum : Graph :=
  [(Node.uri "http://ex.org/a", RDF_type, PROV_Activity),
   (Node.uri "http://ex.org/q1", RDF_type, QUDT_QuantityValue),
   (Node.uri "http://ex.org/q1", BFO_is_input_of, Node.uri "http://ex.org/a"),
   (Node.uri "http://ex.org/q1", QUDT_numericValue, Node.litNum 2),
   (Node.uri "http://ex.org/q1", QUDT_unit, UNIT_MilliM),
   (Node.uri "http://ex.org/q2", RDF_type, QUDT_QuantityValue),
   (Node.uri "http://ex.org/q2", BFO_is_input_of, Node.uri "http://ex.org/a"),
   (Node.uri "http://ex.org/q2", QUDT_numericValue, Node.litNum 3),
   (Node.uri "http://ex.org/q2", QUDT_unit, UNIT_MilliM)]

/-- An average-step input: one qualifying collection with two members of
values 2 and 4 carrying `unit:MilliM`. -/
def gAvg : Graph :=
  [(Node.uri "http://ex.org/a", PROV_used, Node.uri "http://ex.org/coll"),
   (Node.uri "http://ex.org/coll", RDF_type, PROV_Collection),
   (Node.uri "http://ex.org/coll", PPLAN_ctv, Node.uri "http://ex.org/var"),
   (Node.uri "http://ex.org/coll", PROV_hadMember, Node.uri "http://ex.org/m1"),
   (Node.uri "http://ex.org/coll", PROV_hadMember, Node.uri "http://ex.org/m2"),
   (Node.uri "http://ex.org/m1", QUDT_numericValue, Node.litNum 2),
   (Node.uri "http://ex.org/m1", QUDT_unit, UNIT_MilliM),
   (Node.uri "http://ex.org/m2", QUDT_numericValue, Node.litNum 4),
   (Node.uri "http://ex.org/m2", QUDT_unit, UNIT_MilliM)]

/-- An average-step input whose members carry no unit while the
collection itself carries the empty-string literal as `qudt:unit` —
present, but falsy under Python truthiness. -/
def gAvgEmptyUnit : Graph :=
  [(Node.uri "http://ex.org/a", PROV_used, Node.uri "http://ex.org/coll"),
   (Node.uri "http://ex.org/coll", RDF_type, PROV_Collection),
   (Node.uri "http://ex.org/coll", PPLAN_ctv, Node.uri "http://ex.org/var"),
   (Node.uri "http://ex.org/coll", PROV_hadMember, Node.uri "http://ex.org/m1"),
   (Node.uri "http://ex.org/m1", QUDT_numericValue, Node.litNum 2),
   (Node.uri "http://ex.org/coll", QUDT_unit, Node.litStr "")]

/-- An average-step input whose single member carries no unit while the
collection itself carries `unit:M` as `qudt:unit`. -/
def gAvgCollUnit : Graph :=
  [(Node.uri "http://ex.org/a", PROV_used, Node.uri "http://ex.org/coll"),
   (Node.uri "http://ex.org/coll", RDF_type, PROV_Collection),
   (Node.uri "http://ex.org/coll", PPLAN_ctv, Node.uri "http://ex.org/var"),
   (Node.uri "http://ex.org/coll", PROV_hadMember, Node.uri "http://ex.org/m1"),
   (Node.uri "http://ex.org/m1", QUDT_numericValue, Node.litNum 2),
   (Node.uri "http://ex.org/coll", QUDT_unit, UNIT_M)]

/-- A CSVW-step input: two scalar inputs whose plan-variable labels name
the metadata URI and the column. -/
def gCsvw : Graph :=
  [(Node.uri "http://ex.org/i1", BFO_is_input_of, Node.uri "http://ex.org/a"),
   (Node.uri "http://ex.org/i1", PPLAN_ctv, Node.uri "http://ex.org/v1"),
   (Node.uri "http://ex.org/v1", RDFS_label, Node.litStr "Metadata URI"),
   (Node.uri "http://ex.org/i1", RDF_value, Node.litStr "http://ex.org/meta.json"),
   (Node.uri "http://ex.org/i2", BFO_is_input_of, Node.uri "http://ex.org/a"),
   (Node.uri "http://ex.org/i2", PPLAN_ctv, Node.uri "http://ex.org/v2"),
   (Node.uri "http://ex.org/v2", RDFS_label, Node.litStr "Column name"),
   (Node.uri "http://ex.org/i2", RDF_value, Node.litStr "height")]

/-! ## Helper lemmas -/

theorem Graph.mem_add {g : Graph} {t u : Triple} :
    u ∈ Graph.add g t ↔ u ∈ g ∨ u = t := by
  unfold Graph.add
  split
  · next h => constructor
              · exact fun hu => Or.inl hu
              · rintro (hu | rfl) <;> [exact hu; exact h]
  · simp [List.mem_append]

theorem Graph.mem_addAll {ts : List Triple} :
    ∀ {g : Graph} {u : Triple}, u ∈ Graph.addAll g ts ↔ u ∈ g ∨ u ∈ ts := by
  induction ts with
  | nil => intro g u; simp [Graph.addAll]
  | cons t rest ih =>
    intro g u
    show u ∈ Graph.addAll (Graph.add g t) rest ↔ _
    rw [ih, Graph.mem_add]
    simp [or_assoc]

theorem Graph.addAll_sub {ts : List Triple} :
    ∀ {g : Graph}, ∃ extra, Graph.addAll g ts = g ++ extra ∧ ∀ t ∈ extra, t ∈ ts := by
  induction ts with
  | nil => intro g; exact ⟨[], by simp [Graph.addAll], by simp⟩
  | cons t rest ih =>
    intro g
    show ∃ extra, Graph.addAll (Graph.add g t) rest = g ++ extra ∧ _
    obtain ⟨extra, he, hsub⟩ := @ih (Graph.add g t)
    by_cases ht : t ∈ g
    · have hadd : Graph.add g t = g := by unfold Graph.add; rw [if_pos ht]
      rw [hadd] at he ⊢
      exact ⟨extra, he, fun u hu => List.mem_cons_of_mem _ (hsub u hu)⟩
    · have hadd : Graph.add g t = g ++ [t] := by unfold Graph.add; rw [if_neg ht]
      rw [hadd] at he
      refine ⟨t :: extra, by rw [hadd, he, List.append_assoc]; rfl, ?_⟩
      rintro u hu
      rcases List.mem_cons.1 hu with rfl | hu
      · exact List.mem_cons_self _ _
      · exact List.mem_cons_of_mem _ (hsub u hu)

theorem Graph.addAll_of_fresh {ts : List Triple} :
    ∀ {g : Graph}, ts.Nodup → (∀ t ∈ ts, t ∉ g) → Graph.addAll g ts = g ++ ts := by
  induction ts with
  | nil => intro g _ _; simp [Graph.addAll]
  | cons t rest ih =>
    intro g hnd hfr
    show Graph.addAll (Graph.add g t) rest = _
    have ht : t ∉ g := hfr t (List.mem_cons_self _ _)
    have hadd : Graph.add g t = g ++ [t] := by unfold Graph.add; rw [if_neg ht]
    rw [hadd, ih (List.Nodup.of_cons hnd)]
    · simp
    · intro u hu
      simp only [List.mem_append, List.mem_singleton]
      rintro (hg | rfl)
      · exact hfr u (List.mem_cons_of_mem _ hu) hg
      · exact (List.nodup_cons.1 hnd).1 hu

theorem Graph.triplesSP_append {g h : Graph} {s p : Node} :
    Graph.triplesSP (g ++ h) s p = Graph.triplesSP g s p ++ Graph.triplesSP h s p := by
  unfold Graph.triplesSP
  rw [List.filter_append, List.map_append]

theorem Graph.triplesPO_append {g h : Graph} {p o : Node} :
    Graph.triplesPO (g ++ h) p o = Graph.triplesPO g p o ++ Graph.triplesPO h p o := by
  unfold Graph.triplesPO
  rw [List.filter_append, List.map_append]

theorem Graph.triplesSP_nil_of_subj {h : Graph} {s p : Node}
    (hs : ∀ t ∈ h, t.1 ≠ s) : Graph.triplesSP h s p = [] := by
  unfold Graph.triplesSP
  rw [List.filter_eq_nil_iff.2, List.map_nil]
  intro t ht
  simpa using fun hc _ => hs t ht hc

theorem Graph.triplesSP_nil_of_pred {h : Graph} {s p : Node}
    (hp : ∀ t ∈ h, t.2.1 ≠ p) : Graph.triplesSP h s p = [] := by
  unfold Graph.triplesSP
  rw [List.filter_eq_nil_iff.2, List.map_nil]
  intro t ht
  simpa using fun _ hc => hp t ht hc

theorem Graph.triplesPO_nil_of_pred {h : Graph} {p o : Node}
    (hp : ∀ t ∈ h, t.2.1 ≠ p) : Graph.triplesPO h p o = [] := by
  unfold Graph.triplesPO
  rw [List.filter_eq_nil_iff.2, List.map_nil]
  intro t ht
  simpa using fun hc => absurd hc (hp t ht)

theorem Graph.value_append_nil {g h : Graph} {s p : Node}
    (hh : Graph.triplesSP h s p = []) :
    Graph.value (g ++ h) s p = Graph.value g s p := by
  unfold Graph.value
  rw [Graph.triplesSP_append, hh, List.append_nil]

theorem Graph.objectsOf_append_nil {g h : Graph} {s p : Node}
    (hh : Graph.triplesSP h s p = []) :
    Graph.objectsOf (g ++ h) s p = Graph.objectsOf g s p := by
  unfold Graph.objectsOf
  rw [Graph.triplesSP_append, hh, List.append_nil]

theorem Graph.subjectsOf_append_nil {g h : Graph} {p o : Node}
    (hh : Graph.triplesPO h p o = []) :
    Graph.subjectsOf (g ++ h) p o = Graph.subjectsOf g p o := by
  unfold Graph.subjectsOf
  rw [Graph.triplesPO_append, hh, List.append_nil]

theorem Graph.hasSP_append {g h : Graph} {s p : Node}
    (hh : ∀ t ∈ h, ¬ (t.1 = s ∧ t.2.1 = p)) :
    Graph.hasSP (g ++ h) s p = Graph.hasSP g s p := by
  unfold Graph.hasSP
  rw [List.any_append]
  have : h.any (fun t => decide (t.1 = s ∧ t.2.1 = p)) = false := by
    rw [List.any_eq_false]
    intro t ht
    simpa using hh t ht
  rw [this, Bool.or_false]

theorem firstDedupAux_subset {α : Type} [DecidableEq α] :
    ∀ {l seen : List α} {x : α}, x ∈ firstDedupAux seen l → x ∈ l := by
  intro l
  induction l with
  | nil => intro seen x hx; simp [firstDedupAux] at hx
  | cons y r ih =>
    intro seen x hx
    rw [firstDedupAux] at hx
    by_cases hy : y ∈ seen
    · rw [if_pos hy] at hx
      exact List.mem_cons_of_mem _ (ih hx)
    · rw [if_neg hy] at hx
      rcases List.mem_cons.1 hx with rfl | hx
      · exact List.mem_cons_self _ _
      · exact List.mem_cons_of_mem _ (ih hx)

theorem firstDedup_subset {α : Type} [DecidableEq α] :
    ∀ {l : List α} {x : α}, x ∈ firstDedup l → x ∈ l :=
  fun hx => firstDedupAux_subset hx

theorem mem_triplesSP {g : Graph} {s p x : Node} :
    x ∈ Graph.triplesSP g s p → ∃ t ∈ g, t.1 = s ∧ t.2.1 = p ∧ t.2.2 = x := by
  unfold Graph.triplesSP
  intro hx
  obtain ⟨t, ht, rfl⟩ := List.mem_map.1 hx
  have := List.mem_filter.1 ht
  refine ⟨t, this.1, ?_⟩
  have h2 := of_decide_eq_true this.2
  exact ⟨h2.1, h2.2, rfl⟩

theorem mem_objectsOf {g : Graph} {s p x : Node}
    (hx : x ∈ Graph.objectsOf g s p) : ∃ t ∈ g, t.1 = s ∧ t.2.1 = p ∧ t.2.2 = x :=
  mem_triplesSP (firstDedup_subset hx)

theorem cleanup_eq_self {g : Graph} {r : Node}
    (h : ∀ t ∈ g, t.1 ≠ r ∧ t.2.2 ≠ r) : cleanup_previous_result g r = g := by
  unfold cleanup_previous_result
  rw [List.filter_eq_self]
  intro t ht
  simp only [decide_eq_true_eq]
  rintro (hc | hc)
  · exact (h t ht).1 hc
  · exact (h t ht).2 hc

theorem cleanup_append_drop {g h : Graph} {r : Node}
    (hg : ∀ t ∈ g, t.1 ≠ r ∧ t.2.2 ≠ r) (hh : ∀ t ∈ h, t.1 = r ∨ t.2.2 = r) :
    cleanup_previous_result (g ++ h) r = g := by
  unfold cleanup_previous_result
  rw [List.filter_append]
  rw [show List.filter _ g = g from List.filter_eq_self.2 ?_,
      show List.filter _ h = [] from List.filter_eq_nil_iff.2 ?_, List.append_nil]
  · intro t ht
    simp only [decide_eq_true_eq, not_or]
    rcases hh t ht with hc | hc
    · exact fun hn => hn.1 hc
    · exact fun hn => hn.2 hc
  · intro t ht
    simp only [decide_eq_true_eq, not_or]
    exact ⟨(hg t ht).1, (hg t ht).2⟩

theorem avgExtract_length {g : Graph} :
    ∀ {ms : List Node} {vs : List ℚ} {us : List Node},
      avgExtract g ms = .ok (vs, us) → vs.length = ms.length := by
  intro ms
  induction ms with
  | nil => intro vs us h; simp [avgExtract] at h; simp [← h.1]
  | cons m rest ih =>
    intro vs us h
    rw [avgExtract] at h
    split at h
    · exact absurd h (by simp)
    · split at h
      · exact absurd h (by simp)
      · split at h
        · exact absurd h (by simp)
        · next vs0 us0 heq =>
            simp only [Except.ok.injEq, Prod.mk.injEq] at h
            rw [← h.1, List.length_cons, ih heq, List.length_cons]

theorem foldl_add_eq_sum : ∀ (l : List ℚ) (a : ℚ), l.foldl (· + ·) a = a + l.sum := by
  intro l
  induction l with
  | nil => intro a; simp
  | cons v r ih => intro a; rw [List.foldl_cons, ih, List.sum_cons]; ring

theorem foldl_min_mem : ∀ (l : List ℚ) (a : ℚ), l.foldl min a = a ∨ l.foldl min a ∈ l := by
  intro l
  induction l with
  | nil => intro a; simp
  | cons v r ih =>
    intro a
    rw [List.foldl_cons]
    rcases ih (min a v) with h | h
    · rcases min_choice a v with hc | hc
      · exact Or.inl (by rw [h, hc])
      · exact Or.inr (by rw [h, hc]; exact List.mem_cons_self _ _)
    · exact Or.inr (List.mem_cons_of_mem _ h)

theorem foldl_min_le : ∀ (l : List ℚ) (a : ℚ),
    l.foldl min a ≤ a ∧ ∀ v ∈ l, l.foldl min a ≤ v := by
  intro l
  induction l with
  | nil => intro a; simp
  | cons v r ih =>
    intro a
    rw [List.foldl_cons]
    obtain ⟨h1, h2⟩ := ih (min a v)
    refine ⟨h1.trans (min_le_left _ _), ?_⟩
    intro w hw
    rcases List.mem_cons.1 hw with rfl | hw
    · exact h1.trans (min_le_right _ _)
    · exact h2 w hw

theorem foldl_max_mem : ∀ (l : List ℚ) (a : ℚ), l.foldl max a = a ∨ l.foldl max a ∈ l := by
  intro l
  induction l with
  | nil => intro a; simp
  | cons v r ih =>
    intro a
    rw [List.foldl_cons]
    rcases ih (max a v) with h | h
    · rcases max_choice a v with hc | hc
      · exact Or.inl (by rw [h, hc])
      · exact Or.inr (by rw [h, hc]; exact List.mem_cons_self _ _)
    · exact Or.inr (List.mem_cons_of_mem _ h)

theorem foldl_max_ge : ∀ (l : List ℚ) (a : ℚ),
    a ≤ l.foldl max a ∧ ∀ v ∈ l, v ≤ l.foldl max a := by
  intro l
  induction l with
  | nil => intro a; simp
  | cons v r ih =>
    intro a
    rw [List.foldl_cons]
    obtain ⟨h1, h2⟩ := ih (max a v)
    refine ⟨(le_max_left _ _).trans h1, ?_⟩
    intro w hw
    rcases List.mem_cons.1 hw with rfl | hw
    · exact (le_max_right _ _).trans h1
    · exact h2 w hw

theorem pyMin_spec {l : List ℚ} (h : l ≠ []) : pyMin l ∈ l ∧ ∀ v ∈ l, pyMin l ≤ v := by
  match l with
  | [] => exact absurd rfl h
  | v :: r =>
    simp only [pyMin]
    constructor
    · rcases foldl_min_mem r v with hm | hm
      · rw [hm]; exact List.mem_cons_self _ _
      · exact List.mem_cons_of_mem _ hm
    · intro w hw
      rcases List.mem_cons.1 hw with rfl | hw
      · exact (foldl_min_le r w).1
      · exact (foldl_min_le r v).2 w hw

theorem pyMax_spec {l : List ℚ} (h : l ≠ []) : pyMax l ∈ l ∧ ∀ v ∈ l, v ≤ pyMax l := by
  match l with
  | [] => exact absurd rfl h
  | v :: r =>
    simp only [pyMax]
    constructor
    · rcases foldl_max_mem r v with hm | hm
      · rw [hm]; exact List.mem_cons_self _ _
      · exact List.mem_cons_of_mem _ hm
    · intro w hw
      rcases List.mem_cons.1 hw with rfl | hw
      · exact (foldl_max_ge r w).1
      · exact (foldl_max_ge r v).2 w hw

theorem errTriples_cases {ann body : Node} {act : Option Node} {msg : String}
    {code : Option String} {t : Triple} (ht : t ∈ errTriples ann body act msg code) :
    (t.1 = ann ∨ t.1 = body) ∧
    (t.2.1 = RDF_type → t.2.2 = OA_Ann ∨ t.2.2 = OA_TextualBody) := by
  unfold errTriples at ht
  rcases act with _ | a <;> rcases code with _ | c <;>
    simp only [List.mem_append, List.mem_cons, List.mem_singleton,
      List.not_mem_nil, or_false, or_assoc] at ht
  · rcases ht with rfl | rfl | rfl | rfl | rfl <;>
      refine ⟨by simp, fun hp => ?_⟩ <;>
      first
        | exact Or.inl rfl
        | exact Or.inr rfl
        | (simp at hp; exact absurd hp (by decide))
  · rcases ht with rfl | rfl | rfl | rfl | rfl | rfl <;>
      refine ⟨by simp, fun hp => ?_⟩ <;>
      first
        | exact Or.inl rfl
        | exact Or.inr rfl
        | (simp at hp; exact absurd hp (by decide))
  · rcases ht with rfl | rfl | rfl | rfl | rfl | rfl | rfl <;>
      refine ⟨by simp, fun hp => ?_⟩ <;>
      first
        | exact Or.inl rfl
        | exact Or.inr rfl
        | (simp at hp; exact absurd hp (by decide))
  · rcases ht with rfl | rfl | rfl | rfl | rfl | rfl | rfl | rfl <;>
      refine ⟨by simp, fun hp => ?_⟩ <;>
      first
        | exact Or.inl rfl
        | exact Or.inr rfl
        | (simp at hp; exact absurd hp (by decide))

theorem add_error_sub {g : Graph} {act : Option Node} {msg : String}
    {code : Option String} {ann body : Node} :
    ∃ tail, add_error g act msg code ann body = g ++ tail ∧
      ∀ t ∈ tail, t ∈ errTriples ann body act msg code := by
  unfold add_error
  exact Graph.addAll_sub

theorem mem_add_error {g : Graph} {act : Option Node} {msg : String}
    {code : Option String} {ann body : Node} {t : Triple} :
    t ∈ add_error g act msg code ann body ↔
      t ∈ g ∨ t ∈ errTriples ann body act msg code := by
  unfold add_error
  exact Graph.mem_addAll

theorem hasErrorAnn_add_error {g : Graph} {act : Option Node} {msg code : String}
    {ann body : Node} :
    hasErrorAnn (add_error g act msg (some code) ann body) code := by
  refine ⟨(ann, OA_hasBody, body), ?_, rfl, ?_, ?_, ?_, ?_⟩ <;>
    rw [mem_add_error] <;> right <;>
    unfold errTriples <;> rcases act with _ | a <;> simp

theorem add_error_noNewQV {g : Graph} {act : Option Node} {msg : String}
    {code : Option String} {ann body : Node} {s : Node} :
    (s, RDF_type, QUDT_QuantityValue) ∈ add_error g act msg code ann body ↔
      (s, RDF_type, QUDT_QuantityValue) ∈ g := by
  rw [mem_add_error]
  constructor
  · rintro (hg | he)
    · exact hg
    · have h2 := (errTriples_cases he).2 rfl
      rcases h2 with hc | hc <;> simp at hc <;> exact absurd hc (by decide)
  · exact Or.inl

theorem sumResultTriples_subj {res : Node} {d : SumData} {t : Triple}
    (ht : t ∈ sumResultTriples res d) : t.1 = res := by
  unfold sumResultTriples at ht
  simp only [List.mem_append, List.mem_cons, List.not_mem_nil, or_false,
    List.mem_map, or_assoc] at ht
  rcases ht with rfl | rfl | rfl | rfl | ⟨qv, _, rfl⟩ <;> rfl

theorem sumResultTriples_type {res : Node} {d : SumData} {t : Triple}
    (ht : t ∈ sumResultTriples res d) (hp : t.2.1 = RDF_type) :
    t.2.2 = QUDT_QuantityValue := by
  unfold sumResultTriples at ht
  simp only [List.mem_append, List.mem_cons, List.not_mem_nil, or_false,
    List.mem_map, or_assoc] at ht
  rcases ht with rfl | rfl | rfl | rfl | ⟨qv, _, rfl⟩ <;>
    first
      | rfl
      | (simp at hp; exact absurd hp (by decide))

theorem avgResultTriples_subj {res act : Node} {d : AvgData} {t : Triple}
    (ht : t ∈ avgResultTriples res act d) : t.1 = res := by
  unfold avgResultTriples at ht
  rcases hu : d.unitIri with _ | u
  · rw [hu] at ht
    simp only [List.mem_append, List.mem_cons, List.not_mem_nil, or_false,
      or_assoc] at ht
    rcases ht with rfl | rfl | rfl | rfl | rfl | rfl | rfl | rfl | rfl | rfl <;> rfl
  · rw [hu] at ht
    by_cases htr : u.truthy <;> simp only [htr, if_true, if_false,
      Bool.false_eq_true, List.mem_append, List.mem_cons, List.mem_singleton,
      List.not_mem_nil, or_false, or_assoc] at ht
    · rcases ht with rfl | rfl | rfl | rfl | rfl | rfl | rfl | rfl | rfl | rfl | rfl <;> rfl
    · rcases ht with rfl | rfl | rfl | rfl | rfl | rfl | rfl | rfl | rfl | rfl <;> rfl

theorem avgResultTriples_pred {res act : Node} {d : AvgData} {t : Triple}
    (ht : t ∈ avgResultTriples res act d) :
    t.2.1 = RDF_type ∨ t.2.1 = QUDT_numericValue ∨ t.2.1 = QUDT_unit ∨
    t.2.1 = PROV_wasGeneratedBy ∨ t.2.1 = PROV_wasDerivedFrom ∨
    t.2.1 = RDFS_label ∨ t.2.1 = EX_valueCount ∨
    t.2.1 = EX_calculationMethod ∨ t.2.1 = EX_minValue ∨ t.2.1 = EX_maxValue := by
  unfold avgResultTriples at ht
  rcases hu : d.unitIri with _ | u
  · rw [hu] at ht
    simp only [List.mem_append, List.mem_cons, List.not_mem_nil, or_false,
      or_assoc] at ht
    rcases ht with rfl | rfl | rfl | rfl | rfl | rfl | rfl | rfl | rfl | rfl <;> simp
  · rw [hu] at ht
    by_cases htr : u.truthy <;> simp only [htr, if_true, if_false,
      Bool.false_eq_true, List.mem_append, List.mem_cons, List.mem_singleton,
      List.not_mem_nil, or_false, or_assoc] at ht
    · rcases ht with rfl | rfl | rfl | rfl | rfl | rfl | rfl | rfl | rfl | rfl | rfl <;> simp
    · rcases ht with rfl | rfl | rfl | rfl | rfl | rfl | rfl | rfl | rfl | rfl <;> simp

theorem avgResultTriples_type {res act : Node} {d : AvgData} {t : Triple}
    (ht : t ∈ avgResultTriples res act d) (hp : t.2.1 = RDF_type) :
    t.2.2 = QUDT_QuantityValue ∨ t.2.2 = PROV_Entity := by
  unfold avgResultTriples at ht
  rcases hu : d.unitIri with _ | u
  · rw [hu] at ht
    simp only [List.mem_append, List.mem_cons, List.not_mem_nil, or_false,
      or_assoc] at ht
    rcases ht with rfl | rfl | rfl | rfl | rfl | rfl | rfl | rfl | rfl | rfl <;>
      first
        | exact Or.inl rfl
        | exact Or.inr rfl
        | (simp at hp; exact absurd hp (by decide))
  · rw [hu] at ht
    by_cases htr : u.truthy <;> simp only [htr, if_true, if_false,
      Bool.false_eq_true, List.mem_append, List.mem_cons, List.mem_singleton,
      List.not_mem_nil, or_false, or_assoc] at ht
    · rcases ht with rfl | rfl | rfl | rfl | rfl | rfl | rfl | rfl | rfl | rfl | rfl <;>
        first
          | exact Or.inl rfl
          | exact Or.inr rfl
          | (simp at hp; exact absurd hp (by decide))
    · rcases ht with rfl | rfl | rfl | rfl | rfl | rfl | rfl | rfl | rfl | rfl <;>
        first
          | exact Or.inl rfl
          | exact Or.inr rfl
          | (simp at hp; exact absurd hp (by decide))

theorem Graph.value_append_subj {g h : Graph} {s p r : Node}
    (hh : ∀ t ∈ h, t.1 = r) (hs : s ≠ r) :
    Graph.value (g ++ h) s p = Graph.value g s p :=
  Graph.value_append_nil (Graph.triplesSP_nil_of_subj
    (fun t ht hc => hs ((hc ▸ hh t ht : s = r))))

theorem avgExtract_congr {g h : Graph} {r : Node} (hh : ∀ t ∈ h, t.1 = r) :
    ∀ {ms : List Node}, (∀ m ∈ ms, m ≠ r) →
      avgExtract (g ++ h) ms = avgExtract g ms := by
  intro ms
  induction ms with
  | nil => intro _; rfl
  | cons m rest ih =>
    intro hm
    have hm1 : m ≠ r := hm m (List.mem_cons_self _ _)
    have hnv : Graph.value (g ++ h) m QUDT_numericValue = Graph.value g m QUDT_numericValue :=
      Graph.value_append_subj hh hm1
    have hrv : Graph.value (g ++ h) m RDF_value = Graph.value g m RDF_value :=
      Graph.value_append_subj hh hm1
    have hun : Graph.value (g ++ h) m QUDT_unit = Graph.value g m QUDT_unit :=
      Graph.value_append_subj hh hm1
    have hrest := ih (fun x hx => hm x (List.mem_cons_of_mem _ hx))
    simp only [avgExtract]
    rw [hnv, hrv, hun, hrest]

theorem avgInputs_congr {g h : Graph} {act : Node}
    (hused : ∀ t ∈ h, t.2.1 ≠ PROV_used)
    (htype : ∀ t ∈ h, t.2.1 = RDF_type → t.2.2 ≠ PROV_Collection)
    (hctv : ∀ t ∈ h, t.2.1 ≠ PPLAN_ctv) :
    avgInputs (g ++ h) act = avgInputs g act := by
  unfold avgInputs
  rw [Graph.objectsOf_append_nil (Graph.triplesSP_nil_of_pred hused)]
  apply List.filter_congr
  intro e _
  have h1 : ((e, RDF_type, PROV_Collection) ∈ g ++ h) ↔ ((e, RDF_type, PROV_Collection) ∈ g) := by
    rw [List.mem_append]
    constructor
    · rintro (hg | hx)
      · exact hg
      · exact absurd rfl (htype _ hx rfl)
    · exact Or.inl
  have h2 : Graph.hasSP (g ++ h) e PPLAN_ctv = Graph.hasSP g e PPLAN_ctv :=
    Graph.hasSP_append (fun t ht hc => hctv t ht hc.2)
  rw [h2]
  congr 1
  exact decide_eq_decide.mpr h1

theorem lookup_none_of_not_mem {α β : Type} [BEq α] [LawfulBEq α] (k : α) :
    ∀ (l : List (α × β)), k ∉ l.map Prod.fst → List.lookup k l = none := by
  intro l
  induction l with
  | nil => intro _; rfl
  | cons p rest ih =>
    obtain ⟨a, b⟩ := p
    intro hk
    simp only [List.map_cons, List.mem_cons] at hk
    push_neg at hk
    have hne : (k == a) = false := beq_eq_false_iff_ne.mpr hk.1
    simp [List.lookup, hne, ih hk.2]

/-- Claim C7 (counterexample): the claim states that the notation "K"
maps to the QUDT kelvin unit IRI, but the lookup lowercases the notation
to "k", which is not a table key, so the mapping returns no unit. -/
theorem C7_counterexample :
    map_csvw_unit_to_qudt (some "K") = none ∧
      ¬ map_csvw_unit_to_qudt (some "K") = some UNIT_K := by
  constructor <;> decide

/-- Claim C7 (amended): the lookup lowercases the notation before
consulting the table, so exactly the lowercase-spelled table rows are
reachable: mm/millimeter, m/meter, cm/centimeter, kg/kilogram, g/gram,
s/second, celsius and kelvin map to their QUDT IRIs (case-insensitively);
the "K" and degree-Celsius rows are unreachable and those notations map
to no unit, as do a missing, empty or unlisted notation. -/
theorem C7_unit_table :
    map_csvw_unit_to_qudt (some "mm") = some UNIT_MilliM ∧
    map_csvw_unit_to_qudt (some "millimeter") = some UNIT_MilliM ∧
    map_csvw_unit_to_qudt (some "m") = some UNIT_M ∧
    map_csvw_unit_to_qudt (some "meter") = some UNIT_M ∧
    map_csvw_unit_to_qudt (some "cm") = some UNIT_CentiM ∧
    map_csvw_unit_to_qudt (some "centimeter") = some UNIT_CentiM ∧
    map_csvw_unit_to_qudt (some "kg") = some UNIT_KiloGM ∧
    map_csvw_unit_to_qudt (some "kilogram") = some UNIT_KiloGM ∧
    map_csvw_unit_to_qudt (some "g") = some UNIT_GM ∧
    map_csvw_unit_to_qudt (some "gram") = some UNIT_GM ∧
    map_csvw_unit_to_qudt (some "s") = some UNIT_SEC ∧
    map_csvw_unit_to_qudt (some "second") = some UNIT_SEC ∧
    map_csvw_unit_to_qudt (some "celsius") = some UNIT_DEG_C ∧
    map_csvw_unit_to_qudt (some "Celsius") = some UNIT_DEG_C ∧
    map_csvw_unit_to_qudt (some "kelvin") = some UNIT_K ∧
    map_csvw_unit_to_qudt (some "Kelvin") = some UNIT_K ∧
    map_csvw_unit_to_qudt (some "K") = none ∧
    map_csvw_unit_to_qudt (some "°C") = none ∧
    map_csvw_unit_to_qudt (some "Â°C") = none ∧
    map_csvw_unit_to_qudt none = none ∧
    map_csvw_unit_to_qudt (some "") = none ∧
    (∀ s : String,
      pyLower s ∉ ["mm", "millimeter", "m", "meter", "cm", "centimeter",
        "kg", "kilogram", "g", "gram", "s", "second", "Â°C", "celsius",
        "K", "kelvin"] →
      map_csvw_unit_to_qudt (some s) = none) := by
  refine ⟨?_, ?_, ?_, ?_, ?_, ?_, ?_, ?_, ?_, ?_, ?_, ?_, ?_, ?_, ?_, ?_,
    ?_, ?_, ?_, ?_, ?_, ?_⟩
  case _ => decide
  case _ => decide
  case _ => decide
  case _ => decide
  case _ => decide
  case _ => decide
  case _ => decide
  case _ => decide
  case _ => decide
  case _ => decide
  case _ => decide
  case _ => decide
  case _ => decide
  case _ => decide
  case _ => decide
  case _ => decide
  case _ => decide
  case _ => decide
  case _ => decide
  case _ => rfl
  case _ => decide
  case _ =>
    intro s hs
    simp only [map_csvw_unit_to_qudt]
    by_cases he : s = ""
    · rw [if_pos he]
    · rw [if_neg he]
      apply lookup_none_of_not_mem
      simpa using hs

/-- Claim C7 witness: an unlisted notation maps to no unit. -/
theorem C7_witness : map_csvw_unit_to_qudt (some "furlong") = none := by
  have h := C7_unit_table
  exact h.2.2.2.2.2.2.2.2.2.2.2.2.2.2.2.2.2.2.2.2.2 "furlong" (by decide)

theorem errTriples_nodup {s : String} {b : Nat} {act : Option Node}
    {msg : String} {code : Option String} :
    (errTriples (Node.uri s) (Node.bnode b) act msg code).Nodup := by
  rcases act with _ | a <;> rcases code with _ | c <;>
    simp [errTriples, RDF_type, OA_Ann, OA_motivatedBy, EX_errorReporting,
      OA_hasBody, OA_hasTarget, PROV_wasGeneratedBy, OA_TextualBody,
      RDF_value, EX_errorCode]

theorem add_error_nil {act : Option Node} {msg : String} {code : Option String}
    {ann body : Node} (hnd : (errTriples ann body act msg code).Nodup) :
    add_error [] act msg code ann body = errTriples ann body act msg code := by
  unfold add_error
  rw [Graph.addAll_of_fresh hnd (fun t _ h => absurd h (List.not_mem_nil t))]
  simp

theorem sumRunParsed_err {g : Graph} {an : String} {b : Nat} {rn : String}
    {pr : Option Node × String × String} (hcomp : sumCompute g = .error pr) :
    sumRunParsed g an b rn =
      { graph := add_error g pr.1 pr.2.1 (some pr.2.2)
          (Node.uri ("#errorAnn_" ++ an)) (Node.bnode b),
        errCode := some pr.2.2, result := none } := by
  obtain ⟨act, msg, code⟩ := pr
  unfold sumRunParsed
  rw [hcomp]

theorem sumRunParsed_ok {g : Graph} {an : String} {b : Nat} {rn : String}
    {d : SumData} (hcomp : sumCompute g = .ok d) :
    sumRunParsed g an b rn =
      { graph := g.addAll (sumResultTriples (Node.uri ("#sumResult_" ++ rn)) d),
        errCode := none, result := some (Node.uri ("#sumResult_" ++ rn)) } := by
  unfold sumRunParsed
  rw [hcomp]

theorem avgRunParsed_err {hashFn : String → String} {g : Graph} {ai : String}
    {b : Nat} {pr : String × String}
    (hcomp : avgCompute g (Node.uri ai) = .error pr) :
    avgRunParsed hashFn g ai b =
      { graph := add_error g (some (Node.uri ai)) pr.1 (some pr.2)
          (create_deterministic_iri "errorAnn"
            (create_execution_hash hashFn ai ((avgInputs g (Node.uri ai)).map nodeStr)))
          (Node.bnode b),
        errCode := some pr.2, result := none } := by
  obtain ⟨msg, code⟩ := pr
  unfold avgRunParsed
  rw [hcomp]

theorem avgRunParsed_ok {hashFn : String → String} {g : Graph} {ai : String}
    {b : Nat} {d : AvgData} (hcomp : avgCompute g (Node.uri ai) = .ok d) :
    avgRunParsed hashFn g ai b =
      { graph := (cleanup_previous_result g
            (create_deterministic_iri "averageResult"
              (create_execution_hash hashFn ai ((avgInputs g (Node.uri ai)).map nodeStr)))).addAll
          (avgResultTriples
            (create_deterministic_iri "averageResult"
              (create_execution_hash hashFn ai ((avgInputs g (Node.uri ai)).map nodeStr)))
            (Node.uri ai) d),
        errCode := none,
        result := some (create_deterministic_iri "averageResult"
          (create_execution_hash hashFn ai ((avgInputs g (Node.uri ai)).map nodeStr))) } := by
  unfold avgRunParsed
  rw [hcomp]

theorem csvwRunParsed_err {lc : String → String → Except String ColData}
    {hashFn : String → String} {g : Graph} {ai : String} {b : Nat}
    {pr : String × String}
    (hcomp : csvwCompute lc g (g.subjectsOf BFO_is_input_of (Node.uri ai)) = .error pr) :
    csvwRunParsed lc hashFn g ai b =
      { graph := add_error g (some (Node.uri ai)) pr.1 (some pr.2)
          (create_deterministic_iri "errorAnn"
            (create_execution_hash hashFn ai
              ((g.subjectsOf BFO_is_input_of (Node.uri ai)).map nodeStr)))
          (Node.bnode b),
        errCode := some pr.2, result := none } := by
  obtain ⟨msg, code⟩ := pr
  unfold csvwRunParsed
  rw [hcomp]

theorem csvwRunParsed_ok {lc : String → String → Except String ColData}
    {hashFn : String → String} {g : Graph} {ai : String} {b : Nat}
    {d : ColData} {cn : String}
    (hcomp : csvwCompute lc g (g.subjectsOf BFO_is_input_of (Node.uri ai)) = .ok (d, cn)) :
    csvwRunParsed lc hashFn g ai b =
      { graph := (cleanup_previous_result g
            (create_deterministic_iri "columnData"
              (create_execution_hash hashFn ai
                ((g.subjectsOf BFO_is_input_of (Node.uri ai)).map nodeStr)))).addAll
          (csvwResultTriples
            (create_deterministic_iri "columnData"
              (create_execution_hash hashFn ai
                ((g.subjectsOf BFO_is_input_of (Node.uri ai)).map nodeStr)))
            (Node.uri ai) (g.subjectsOf BFO_is_input_of (Node.uri ai)) d cn
            (create_execution_hash hashFn ai
              ((g.subjectsOf BFO_is_input_of (Node.uri ai)).map nodeStr))),
        errCode := none,
        result := some (create_deterministic_iri "columnData"
          (create_execution_hash hashFn ai
            ((g.subjectsOf BFO_is_input_of (Node.uri ai)).map nodeStr))) } := by
  unfold csvwRunParsed
  rw [hcomp]


theorem sumRunParsed_err_graph {g : Graph} {an : String} {b : Nat} {rn : String}
    {pr : Option Node × String × String} (hcomp : sumCompute g = .error pr) :
    (sumRunParsed g an b rn).graph =
      add_error g pr.1 pr.2.1 (some pr.2.2)
        (Node.uri ("#errorAnn_" ++ an)) (Node.bnode b) := by
  rw [sumRunParsed_err hcomp]

theorem sumRunParsed_err_code {g : Graph} {an : String} {b : Nat} {rn : String}
    {pr : Option Node × String × String} (hcomp : sumCompute g = .error pr) :
    (sumRunParsed g an b rn).errCode = some pr.2.2 := by
  rw [sumRunParsed_err hcomp]

theorem sumRunParsed_err_result {g : Graph} {an : String} {b : Nat} {rn : String}
    {pr : Option Node × String × String} (hcomp : sumCompute g = .error pr) :
    (sumRunParsed g an b rn).result = none := by
  rw [sumRunParsed_err hcomp]

theorem sumRunParsed_ok_graph {g : Graph} {an : String} {b : Nat} {rn : String}
    {d : SumData} (hcomp : sumCompute g = .ok d) :
    (sumRunParsed g an b rn).graph =
      g.addAll (sumResultTriples (Node.uri ("#sumResult_" ++ rn)) d) := by
  rw [sumRunParsed_ok hcomp]

theorem sumRunParsed_ok_code {g : Graph} {an : String} {b : Nat} {rn : String}
    {d : SumData} (hcomp : sumCompute g = .ok d) :
    (sumRunParsed g an b rn).errCode = none := by
  rw [sumRunParsed_ok hcomp]

theorem sumRunParsed_ok_result {g : Graph} {an : String} {b : Nat} {rn : String}
    {d : SumData} (hcomp : sumCompute g = .ok d) :
    (sumRunParsed g an b rn).result = some (Node.uri ("#sumResult_" ++ rn)) := by
  rw [sumRunParsed_ok hcomp]

theorem avgRunParsed_err_graph {hashFn : String → String} {g : Graph} {ai : String}
    {b : Nat} {pr : String × String}
    (hcomp : avgCompute g (Node.uri ai) = .error pr) :
    (avgRunParsed hashFn g ai b).graph =
      add_error g (some (Node.uri ai)) pr.1 (some pr.2)
        (create_deterministic_iri "errorAnn"
          (create_execution_hash hashFn ai ((avgInputs g (Node.uri ai)).map nodeStr)))
        (Node.bnode b) := by
  rw [avgRunParsed_err hcomp]

theorem avgRunParsed_err_code {hashFn : String → String} {g : Graph} {ai : String}
    {b : Nat} {pr : String × String}
    (hcomp : avgCompute g (Node.uri ai) = .error pr) :
    (avgRunParsed hashFn g ai b).errCode = some pr.2 := by
  rw [avgRunParsed_err hcomp]

theorem avgRunParsed_err_result {hashFn : String → String} {g : Graph} {ai : String}
    {b : Nat} {pr : String × String}
    (hcomp : avgCompute g (Node.uri ai) = .error pr) :
    (avgRunParsed hashFn g ai b).result = none := by
  rw [avgRunParsed_err hcomp]

theorem avgRunParsed_ok_graph {hashFn : String → String} {g : Graph} {ai : String}
    {b : Nat} {d : AvgData} (hcomp : avgCompute g (Node.uri ai) = .ok d) :
    (avgRunParsed hashFn g ai b).graph =
      (cleanup_previous_result g
          (create_deterministic_iri "averageResult"
            (create_execution_hash hashFn ai ((avgInputs g (Node.uri ai)).map nodeStr)))).addAll
        (avgResultTriples
          (create_deterministic_iri "averageResult"
            (create_execution_hash hashFn ai ((avgInputs g (Node.uri ai)).map nodeStr)))
          (Node.uri ai) d) := by
  rw [avgRunParsed_ok hcomp]

theorem avgRunParsed_ok_code {hashFn : String → String} {g : Graph} {ai : String}
    {b : Nat} {d : AvgData} (hcomp : avgCompute g (Node.uri ai) = .ok d) :
    (avgRunParsed hashFn g ai b).errCode = none := by
  rw [avgRunParsed_ok hcomp]

theorem avgRunParsed_ok_result {hashFn : String → String} {g : Graph} {ai : String}
    {b : Nat} {d : AvgData} (hcomp : avgCompute g (Node.uri ai) = .ok d) :
    (avgRunParsed hashFn g ai b).result =
      some (create_deterministic_iri "averageResult"
        (create_execution_hash hashFn ai ((avgInputs g (Node.uri ai)).map nodeStr))) := by
  rw [avgRunParsed_ok hcomp]

theorem csvwRunParsed_err_graph {lc : String → String → Except String ColData}
    {hashFn : String → String} {g : Graph} {ai : String} {b : Nat}
    {pr : String × String}
    (hcomp : csvwCompute lc g (g.subjectsOf BFO_is_input_of (Node.uri ai)) = .error pr) :
    (csvwRunParsed lc hashFn g ai b).graph =
      add_error g (some (Node.uri ai)) pr.1 (some pr.2)
        (create_deterministic_iri "errorAnn"
          (create_execution_hash hashFn ai
            ((g.subjectsOf BFO_is_input_of (Node.uri ai)).map nodeStr)))
        (Node.bnode b) := by
  rw [csvwRunParsed_err hcomp]

theorem csvwRunParsed_err_code {lc : String → String → Except String ColData}
    {hashFn : String → String} {g : Graph} {ai : String} {b : Nat}
    {pr : String × String}
    (hcomp : csvwCompute lc g (g.subjectsOf BFO_is_input_of (Node.uri ai)) = .error pr) :
    (csvwRunParsed lc hashFn g ai b).errCode = some pr.2 := by
  rw [csvwRunParsed_err hcomp]

theorem csvwRunParsed_err_result {lc : String → String → Except String ColData}
    {hashFn : String → String} {g : Graph} {ai : String} {b : Nat}
    {pr : String × String}
    (hcomp : csvwCompute lc g (g.subjectsOf BFO_is_input_of (Node.uri ai)) = .error pr) :
    (csvwRunParsed lc hashFn g ai b).result = none := by
  rw [csvwRunParsed_err hcomp]

theorem csvwRunParsed_ok_graph {lc : String → String → Except String ColData}
    {hashFn : String → String} {g : Graph} {ai : String} {b : Nat}
    {d : ColData} {cn : String}
    (hcomp : csvwCompute lc g (g.subjectsOf BFO_is_input_of (Node.uri ai)) = .ok (d, cn)) :
    (csvwRunParsed lc hashFn g ai b).graph =
      (cleanup_previous_result g
          (create_deterministic_iri "columnData"
            (create_execution_hash hashFn ai
              ((g.subjectsOf BFO_is_input_of (Node.uri ai)).map nodeStr)))).addAll
        (csvwResultTriples
          (create_deterministic_iri "columnData"
            (create_execution_hash hashFn ai
              ((g.subjectsOf BFO_is_input_of (Node.uri ai)).map nodeStr)))
          (Node.uri ai) (g.subjectsOf BFO_is_input_of (Node.uri ai)) d cn
          (create_execution_hash hashFn ai
            ((g.subjectsOf BFO_is_input_of (Node.uri ai)).map nodeStr))) := by
  rw [csvwRunParsed_ok hcomp]

theorem csvwRunParsed_ok_code {lc : String → String → Except String ColData}
    {hashFn : String → String} {g : Graph} {ai : String} {b : Nat}
    {d : ColData} {cn : String}
    (hcomp : csvwCompute lc g (g.subjectsOf BFO_is_input_of (Node.uri ai)) = .ok (d, cn)) :
    (csvwRunParsed lc hashFn g ai b).errCode = none := by
  rw [csvwRunParsed_ok hcomp]

/-- Claim C3: a Turtle parse failure makes each of the three scripts
return a freshly constructed graph holding exactly the `PARSE_ERROR`
annotation triples (one `oa:Annotation` with its `oa:TextualBody`) and
nothing from the input; a graph that does parse never takes that
fallback — every validation-error branch returns a graph that still
contains the whole parsed input. -/
theorem C3_parse_error_fallback :
    (∀ (e an : String) (b : Nat) (rn : String),
      sumRun (.error e) an b rn =
        { graph := errTriples (Node.uri ("#errorAnn_" ++ an)) (Node.bnode b) none
            ("Failed to parse input graph: " ++ e) (some "PARSE_ERROR"),
          errCode := some "PARSE_ERROR", result := none } ∧
      ((sumRun (.error e) an b rn).graph.filter
        (fun t => decide (t.2.1 = RDF_type ∧ t.2.2 = OA_Ann))).length = 1) ∧
    (∀ (hashFn : String → String) (e ai : String) (b : Nat),
      avgRun hashFn (.error e) ai b =
        { graph := errTriples (create_deterministic_iri "errorAnn" "unknown")
            (Node.bnode b) none
            ("Failed to parse input graph: " ++ e) (some "PARSE_ERROR"),
          errCode := some "PARSE_ERROR", result := none } ∧
      ((avgRun hashFn (.error e) ai b).graph.filter
        (fun t => decide (t.2.1 = RDF_type ∧ t.2.2 = OA_Ann))).length = 1) ∧
    (∀ (lc : String → String → Except String ColData) (hashFn : String → String)
        (e ai : String) (b : Nat),
      csvwRun lc hashFn (.error e) ai b =
        { graph := errTriples (create_deterministic_iri "errorAnn" "unknown")
            (Node.bnode b) none
            ("Failed to parse input graph: " ++ e) (some "PARSE_ERROR"),
          errCode := some "PARSE_ERROR", result := none } ∧
      ((csvwRun lc hashFn (.error e) ai b).graph.filter
        (fun t => decide (t.2.1 = RDF_type ∧ t.2.2 = OA_Ann))).length = 1) ∧
    (∀ (g : Graph) (an : String) (b : Nat) (rn c : String),
      (sumRun (.ok g) an b rn).errCode = some c →
      ∀ t ∈ g, t ∈ (sumRun (.ok g) an b rn).graph) ∧
    (∀ (hashFn : String → String) (g : Graph) (ai : String) (b : Nat) (c : String),
      (avgRun hashFn (.ok g) ai b).errCode = some c →
      ∀ t ∈ g, t ∈ (avgRun hashFn (.ok g) ai b).graph) ∧
    (∀ (lc : String → String → Except String ColData) (hashFn : String → String)
        (g : Graph) (ai : String) (b : Nat) (c : String),
      (csvwRun lc hashFn (.ok g) ai b).errCode = some c →
      ∀ t ∈ g, t ∈ (csvwRun lc hashFn (.ok g) ai b).graph) := by
  refine ⟨?_, ?_, ?_, ?_, ?_, ?_⟩
  · intro e an b rn
    constructor
    · simp only [sumRun]
      rw [add_error_nil errTriples_nodup]
    · simp only [sumRun]
      rw [add_error_nil errTriples_nodup]
      simp [errTriples, RDF_type, OA_Ann, OA_motivatedBy, EX_errorReporting,
        OA_hasBody, OA_TextualBody, RDF_value, EX_errorCode]
  · intro hashFn e ai b
    constructor
    · simp only [avgRun, create_deterministic_iri]
      rw [add_error_nil errTriples_nodup]
    · simp only [avgRun, create_deterministic_iri]
      rw [add_error_nil errTriples_nodup]
      simp [errTriples, RDF_type, OA_Ann, OA_motivatedBy, EX_errorReporting,
        OA_hasBody, OA_TextualBody, RDF_value, EX_errorCode]
  · intro lc hashFn e ai b
    constructor
    · simp only [csvwRun, create_deterministic_iri]
      rw [add_error_nil errTriples_nodup]
    · simp only [csvwRun, create_deterministic_iri]
      rw [add_error_nil errTriples_nodup]
      simp [errTriples, RDF_type, OA_Ann, OA_motivatedBy, EX_errorReporting,
        OA_hasBody, OA_TextualBody, RDF_value, EX_errorCode]
  · intro g an b rn c hc t ht
    show t ∈ (sumRunParsed g an b rn).graph
    cases hcomp : sumCompute g with
    | error pr =>
      rw [sumRunParsed_err_graph hcomp]
      exact mem_add_error.mpr (Or.inl ht)
    | ok d =>
      have hc2 : (sumRunParsed g an b rn).errCode = some c := hc
      rw [sumRunParsed_ok_code hcomp] at hc2
      exact Option.noConfusion hc2
  · intro hashFn g ai b c hc t ht
    show t ∈ (avgRunParsed hashFn g ai b).graph
    cases hcomp : avgCompute g (Node.uri ai) with
    | error pr =>
      rw [avgRunParsed_err_graph hcomp]
      exact mem_add_error.mpr (Or.inl ht)
    | ok d =>
      have hc2 : (avgRunParsed hashFn g ai b).errCode = some c := hc
      rw [avgRunParsed_ok_code hcomp] at hc2
      exact Option.noConfusion hc2
  · intro lc hashFn g ai b c hc t ht
    show t ∈ (csvwRunParsed lc hashFn g ai b).graph
    cases hcomp : csvwCompute lc g (g.subjectsOf BFO_is_input_of (Node.uri ai)) with
    | error pr =>
      rw [csvwRunParsed_err_graph hcomp]
      exact mem_add_error.mpr (Or.inl ht)
    | ok d =>
      obtain ⟨cd, cn⟩ := d
      have hc2 : (csvwRunParsed lc hashFn g ai b).errCode = some c := hc
      rw [csvwRunParsed_ok_code hcomp] at hc2
      exact Option.noConfusion hc2

/-- Claim C1: on a parseable graph whose first `prov:Activity` has at
least two `qudt:QuantityValue` inputs via `bfo:is_input_of`, each with a
float-parseable `qudt:numericValue`, and whose non-null units are all
identical, the sum script succeeds and adds exactly one new
`qudt:QuantityValue`: its `qudt:numericValue` is the arithmetic sum of
the input values, its `qudt:unit` the common unit (or `unit:MilliM` when
no input carries one), linked `prov:wasGeneratedBy` to the activity and
`prov:wasDerivedFrom` to every input. -/
theorem C1_sum_adds_sum_result (g : Graph) (an : String) (b : Nat) (rn : String)
    (a : Node) (vs : List ℚ) (us : List Node)
    (hact : firstActivity g = some a)
    (hlen : 2 ≤ (sumInputs g a).length)
    (hex : sumExtract g (sumInputs g a) = .ok (vs, us))
    (hunits : (firstDedup us).length ≤ 1)
    (hfresh : ¬ occursIn g (Node.uri ("#sumResult_" ++ rn))) :
    (sumRun (.ok g) an b rn).errCode = none ∧
    (sumRun (.ok g) an b rn).result = some (Node.uri ("#sumResult_" ++ rn)) ∧
    (Node.uri ("#sumResult_" ++ rn), RDF_type, QUDT_QuantityValue)
      ∈ (sumRun (.ok g) an b rn).graph ∧
    (Node.uri ("#sumResult_" ++ rn), QUDT_numericValue, Node.litNum vs.sum)
      ∈ (sumRun (.ok g) an b rn).graph ∧
    (Node.uri ("#sumResult_" ++ rn), QUDT_unit, (firstDedup us).head?.getD UNIT_MilliM)
      ∈ (sumRun (.ok g) an b rn).graph ∧
    (Node.uri ("#sumResult_" ++ rn), PROV_wasGeneratedBy, a)
      ∈ (sumRun (.ok g) an b rn).graph ∧
    (∀ qv ∈ sumInputs g a,
      (Node.uri ("#sumResult_" ++ rn), PROV_wasDerivedFrom, qv)
        ∈ (sumRun (.ok g) an b rn).graph) ∧
    (∀ s, (s, RDF_type, QUDT_QuantityValue) ∈ (sumRun (.ok g) an b rn).graph →
      (s, RDF_type, QUDT_QuantityValue) ∈ g ∨ s = Node.uri ("#sumResult_" ++ rn)) ∧
    (Node.uri ("#sumResult_" ++ rn), RDF_type, QUDT_QuantityValue) ∉ g := by
  have h2 : ¬ (sumInputs g a).length < 2 := by omega
  have h3 : ¬ 1 < (firstDedup us).length := by omega
  have hcomp : sumCompute g =
      .ok ⟨a, sumInputs g a, vs, (firstDedup us).head?.getD UNIT_MilliM⟩ := by
    simp only [sumCompute, hact, hex, h2, h3, if_false]
  have hsum : vs.sum = vs.foldl (· + ·) 0 := by
    rw [foldl_add_eq_sum, zero_add]
  refine ⟨?_, ?_, ?_, ?_, ?_, ?_, ?_, ?_, ?_⟩
  · exact sumRunParsed_ok_code hcomp
  · exact sumRunParsed_ok_result hcomp
  · rw [show (sumRun (.ok g) an b rn).graph = (sumRunParsed g an b rn).graph from rfl,
      sumRunParsed_ok_graph hcomp]
    exact Graph.mem_addAll.mpr (Or.inr (by simp [sumResultTriples]))
  · rw [show (sumRun (.ok g) an b rn).graph = (sumRunParsed g an b rn).graph from rfl,
      sumRunParsed_ok_graph hcomp, hsum]
    exact Graph.mem_addAll.mpr (Or.inr (by simp [sumResultTriples]))
  · rw [show (sumRun (.ok g) an b rn).graph = (sumRunParsed g an b rn).graph from rfl,
      sumRunParsed_ok_graph hcomp]
    exact Graph.mem_addAll.mpr (Or.inr (by simp [sumResultTriples]))
  · rw [show (sumRun (.ok g) an b rn).graph = (sumRunParsed g an b rn).graph from rfl,
      sumRunParsed_ok_graph hcomp]
    exact Graph.mem_addAll.mpr (Or.inr (by simp [sumResultTriples]))
  · intro qv hqv
    rw [show (sumRun (.ok g) an b rn).graph = (sumRunParsed g an b rn).graph from rfl,
      sumRunParsed_ok_graph hcomp]
    refine Graph.mem_addAll.mpr (Or.inr ?_)
    unfold sumResultTriples
    refine List.mem_append.mpr (Or.inr ?_)
    exact List.mem_map.mpr ⟨qv, hqv, rfl⟩
  · intro s hs
    rw [show (sumRun (.ok g) an b rn).graph = (sumRunParsed g an b rn).graph from rfl,
      sumRunParsed_ok_graph hcomp] at hs
    rcases Graph.mem_addAll.1 hs with hg | hts
    · exact Or.inl hg
    · exact Or.inr (sumResultTriples_subj hts)
  · intro hc
    exact hfresh ⟨_, hc, Or.inl rfl⟩

/-- Claim C1 witness. -/
theorem C1_witness :
    (sumRun (.ok gSum) "x" 0 "r").errCode = none ∧
    (Node.uri ("#sumResult_" ++ "r"), QUDT_numericValue,
      Node.litNum (([2, 3] : List ℚ).sum)) ∈ (sumRun (.ok gSum) "x" 0 "r").graph ∧
    (Node.uri ("#sumResult_" ++ "r"), QUDT_unit, UNIT_MilliM)
      ∈ (sumRun (.ok gSum) "x" 0 "r").graph ∧
    (Node.uri ("#sumResult_" ++ "r"), PROV_wasGeneratedBy, Node.uri "http://ex.org/a")
      ∈ (sumRun (.ok gSum) "x" 0 "r").graph := by
  have h := C1_sum_adds_sum_result gSum "x" 0 "r" (Node.uri "http://ex.org/a")
    [2, 3] [UNIT_MilliM, UNIT_MilliM]
    (by decide) (by decide) (by decide) (by decide) (by decide)
  refine ⟨h.1, h.2.2.2.1, ?_, h.2.2.2.2.2.1⟩
  have hu := h.2.2.2.2.1
  rwa [show (firstDedup [UNIT_MilliM, UNIT_MilliM]).head?.getD UNIT_MilliM =
    UNIT_MilliM by decide] at hu

/-- Claim C3 witness. -/
theorem C3_witness :
    sumRun (.error "boom") "x" 0 "r" =
      { graph := errTriples (Node.uri ("#errorAnn_" ++ "x")) (Node.bnode 0) none
          ("Failed to parse input graph: " ++ "boom") (some "PARSE_ERROR"),
        errCode := some "PARSE_ERROR", result := none } ∧
    (Node.uri "http://ex.org/s", RDF_value, Node.litStr "v") ∈
      (sumRun (.ok [(Node.uri "http://ex.org/s", RDF_value, Node.litStr "v")])
        "x" 0 "r").graph := by
  have h := C3_parse_error_fallback
  exact ⟨(h.1 "boom" "x" 0 "r").1,
    h.2.2.2.1 [(Node.uri "http://ex.org/s", RDF_value, Node.litStr "v")]
      "x" 0 "r" "NO_ACTIVITY" (by decide) _ (by decide)⟩

theorem sumExtract_error_code {g : Graph} :
    ∀ {ms : List Node} {m c : String}, sumExtract g ms = .error (m, c) →
      c = "MISSING_NUMERIC_VALUE" ∨ c = "NON_NUMERIC_VALUE" := by
  intro ms
  induction ms with
  | nil => intro m c h; exact absurd h (by simp [sumExtract])
  | cons qv rest ih =>
    intro m c h
    rw [sumExtract] at h
    split at h
    · simp only [Except.error.injEq, Prod.mk.injEq] at h
      exact Or.inl h.2.symm
    · split at h
      · simp only [Except.error.injEq, Prod.mk.injEq] at h
        exact Or.inr h.2.symm
      · split at h
        · next e heq =>
            obtain ⟨m0, c0⟩ := e
            simp only [Except.error.injEq, Prod.mk.injEq] at h
            exact h.2 ▸ ih heq
        · exact absurd h (by simp)

theorem avgExtract_error_code {g : Graph} :
    ∀ {ms : List Node} {m c : String}, avgExtract g ms = .error (m, c) →
      c = "MISSING_NUMERIC_VALUE" ∨ c = "NON_NUMERIC_VALUE" := by
  intro ms
  induction ms with
  | nil => intro m c h; exact absurd h (by simp [avgExtract])
  | cons qv rest ih =>
    intro m c h
    rw [avgExtract] at h
    split at h
    · simp only [Except.error.injEq, Prod.mk.injEq] at h
      exact Or.inl h.2.symm
    · split at h
      · simp only [Except.error.injEq, Prod.mk.injEq] at h
        exact Or.inr h.2.symm
      · split at h
        · next e heq =>
            obtain ⟨m0, c0⟩ := e
            simp only [Except.error.injEq, Prod.mk.injEq] at h
            exact h.2 ▸ ih heq
        · exact absurd h (by simp)

/-- Claim C5: the sum script is total over parsed graphs, and each
validation failure — no activity, fewer than two qualifying inputs, a
missing numeric literal, a non-numeric literal, more than one distinct
unit — returns an `oa:Annotation` carrying the matching error code while
adding no `qudt:QuantityValue` (the typed-as-QuantityValue triples of the
output are exactly those of the input). -/
theorem C5_sum_error_paths (g : Graph) (an : String) (b : Nat) (rn : String) :
    (firstActivity g = none →
      (sumRun (.ok g) an b rn).errCode = some "NO_ACTIVITY" ∧
      hasErrorAnn (sumRun (.ok g) an b rn).graph "NO_ACTIVITY" ∧
      (sumRun (.ok g) an b rn).result = none ∧
      (∀ s, (s, RDF_type, QUDT_QuantityValue) ∈ (sumRun (.ok g) an b rn).graph ↔
        (s, RDF_type, QUDT_QuantityValue) ∈ g)) ∧
    (∀ a, firstActivity g = some a → (sumInputs g a).length < 2 →
      (sumRun (.ok g) an b rn).errCode = some "INPUT_TOO_FEW" ∧
      hasErrorAnn (sumRun (.ok g) an b rn).graph "INPUT_TOO_FEW" ∧
      (sumRun (.ok g) an b rn).result = none ∧
      (∀ s, (s, RDF_type, QUDT_QuantityValue) ∈ (sumRun (.ok g) an b rn).graph ↔
        (s, RDF_type, QUDT_QuantityValue) ∈ g)) ∧
    (∀ a m c, firstActivity g = some a → 2 ≤ (sumInputs g a).length →
      sumExtract g (sumInputs g a) = .error (m, c) →
      (sumRun (.ok g) an b rn).errCode = some c ∧
      (c = "MISSING_NUMERIC_VALUE" ∨ c = "NON_NUMERIC_VALUE") ∧
      hasErrorAnn (sumRun (.ok g) an b rn).graph c ∧
      (sumRun (.ok g) an b rn).result = none ∧
      (∀ s, (s, RDF_type, QUDT_QuantityValue) ∈ (sumRun (.ok g) an b rn).graph ↔
        (s, RDF_type, QUDT_QuantityValue) ∈ g)) ∧
    (∀ a vs us, firstActivity g = some a → 2 ≤ (sumInputs g a).length →
      sumExtract g (sumInputs g a) = .ok (vs, us) → 1 < (firstDedup us).length →
      (sumRun (.ok g) an b rn).errCode = some "UNIT_MISMATCH" ∧
      hasErrorAnn (sumRun (.ok g) an b rn).graph "UNIT_MISMATCH" ∧
      (sumRun (.ok g) an b rn).result = none ∧
      (∀ s, (s, RDF_type, QUDT_QuantityValue) ∈ (sumRun (.ok g) an b rn).graph ↔
        (s, RDF_type, QUDT_QuantityValue) ∈ g)) := by
  refine ⟨?_, ?_, ?_, ?_⟩
  · intro hact
    have hcomp : sumCompute g =
        .error (none, "No prov:Activity found in graph", "NO_ACTIVITY") := by
      simp only [sumCompute, hact]
    refine ⟨sumRunParsed_err_code hcomp, ?_, sumRunParsed_err_result hcomp, ?_⟩
    · show hasErrorAnn (sumRunParsed g an b rn).graph _
      rw [sumRunParsed_err_graph hcomp]
      exact hasErrorAnn_add_error
    · intro s
      show _ ∈ (sumRunParsed g an b rn).graph ↔ _
      rw [sumRunParsed_err_graph hcomp]
      exact add_error_noNewQV
  · intro a hact hlen
    have hcomp : sumCompute g =
        .error (some a,
          "Expected at least two qudt:QuantityValue inputs linked via bfo:is_input_of",
          "INPUT_TOO_FEW") := by
      simp only [sumCompute, hact, if_pos hlen]
    refine ⟨sumRunParsed_err_code hcomp, ?_, sumRunParsed_err_result hcomp, ?_⟩
    · show hasErrorAnn (sumRunParsed g an b rn).graph _
      rw [sumRunParsed_err_graph hcomp]
      exact hasErrorAnn_add_error
    · intro s
      show _ ∈ (sumRunParsed g an b rn).graph ↔ _
      rw [sumRunParsed_err_graph hcomp]
      exact add_error_noNewQV
  · intro a m c hact hlen hex
    have hnl : ¬ (sumInputs g a).length < 2 := by omega
    have hcomp : sumCompute g = .error (some a, m, c) := by
      simp only [sumCompute, hact, hnl, if_false, hex]
    refine ⟨sumRunParsed_err_code hcomp, sumExtract_error_code hex, ?_,
      sumRunParsed_err_result hcomp, ?_⟩
    · show hasErrorAnn (sumRunParsed g an b rn).graph _
      rw [sumRunParsed_err_graph hcomp]
      exact hasErrorAnn_add_error
    · intro s
      show _ ∈ (sumRunParsed g an b rn).graph ↔ _
      rw [sumRunParsed_err_graph hcomp]
      exact add_error_noNewQV
  · intro a vs us hact hlen hex hgt
    have hnl : ¬ (sumInputs g a).length < 2 := by omega
    have hcomp : sumCompute g =
        .error (some a,
          "Inputs have different units: "
            ++ String.intercalate ", " ((firstDedup us).map nodeStr),
          "UNIT_MISMATCH") := by
      simp only [sumCompute, hact, hnl, if_false, hex, if_pos hgt]
    refine ⟨sumRunParsed_err_code hcomp, ?_, sumRunParsed_err_result hcomp, ?_⟩
    · show hasErrorAnn (sumRunParsed g an b rn).graph _
      rw [sumRunParsed_err_graph hcomp]
      exact hasErrorAnn_add_error
    · intro s
      show _ ∈ (sumRunParsed g an b rn).graph ↔ _
      rw [sumRunParsed_err_graph hcomp]
      exact add_error_noNewQV

/-- Claim C5 witness. -/
theorem C5_witness :
    (sumRun (.ok [(Node.uri "http://ex.org/s", RDF_value, Node.litStr "v")])
      "x" 0 "r").errCode = some "NO_ACTIVITY" ∧
    hasErrorAnn (sumRun (.ok [(Node.uri "http://ex.org/s", RDF_value, Node.litStr "v")])
      "x" 0 "r").graph "NO_ACTIVITY" := by
  have h := (C5_sum_error_paths
    [(Node.uri "http://ex.org/s", RDF_value, Node.litStr "v")] "x" 0 "r").1 (by decide)
  exact ⟨h.1, h.2.1⟩

theorem avgCompute_error_code {g : Graph} {act : Node} {m c : String}
    (h : avgCompute g act = .error (m, c)) :
    c = "INPUT_TOO_FEW" ∨ c = "EMPTY_COLLECTION" ∨ c = "MISSING_NUMERIC_VALUE" ∨
    c = "NON_NUMERIC_VALUE" ∨ c = "UNIT_MISMATCH" ∨ c = "CALCULATION_ERROR" := by
  unfold avgCompute at h
  split at h
  · simp only [Except.error.injEq, Prod.mk.injEq] at h
    exact Or.inl h.2.symm
  · split at h
    · simp only [Except.error.injEq, Prod.mk.injEq] at h
      exact Or.inr (Or.inl h.2.symm)
    · split at h
      · next e heq =>
          obtain ⟨m0, c0⟩ := e
          simp only [Except.error.injEq, Prod.mk.injEq] at h
          rcases avgExtract_error_code heq with hc | hc
          · exact Or.inr (Or.inr (Or.inl (h.2 ▸ hc)))
          · exact Or.inr (Or.inr (Or.inr (Or.inl (h.2 ▸ hc))))
      · split at h
        · simp only [Except.error.injEq, Prod.mk.injEq] at h
          exact Or.inr (Or.inr (Or.inr (Or.inr (Or.inl h.2.symm))))
        · split at h
          · simp only [Except.error.injEq, Prod.mk.injEq] at h
            exact Or.inr (Or.inr (Or.inr (Or.inr (Or.inr h.2.symm))))
          · exact absurd h (by simp)

/-- Claim C6: over a parsed graph the average script reports an error
with a distinct code exactly in these cases — no qualifying collection
input (typed `prov:Collection`, linked via `prov:used`, tagged with
`p-plan:correspondsToVariable`), a collection with no `prov:hadMember`,
a member with a missing or non-numeric value, more than one distinct
member unit, or a mean-computation failure — and every error output
carries one of those codes, has no result, and adds no
`qudt:QuantityValue`; when none of the cases holds the run succeeds. -/
theorem C6_avg_error_paths (hashFn : String → String) (g : Graph) (ai : String)
    (b : Nat) :
    (avgInputs g (Node.uri ai) = [] →
      (avgRun hashFn (.ok g) ai b).errCode = some "INPUT_TOO_FEW" ∧
      hasErrorAnn (avgRun hashFn (.ok g) ai b).graph "INPUT_TOO_FEW") ∧
    (∀ coll rest, avgInputs g (Node.uri ai) = coll :: rest →
      g.objectsOf coll PROV_hadMember = [] →
      (avgRun hashFn (.ok g) ai b).errCode = some "EMPTY_COLLECTION" ∧
      hasErrorAnn (avgRun hashFn (.ok g) ai b).graph "EMPTY_COLLECTION") ∧
    (∀ coll rest m c, avgInputs g (Node.uri ai) = coll :: rest →
      g.objectsOf coll PROV_hadMember ≠ [] →
      avgExtract g (g.objectsOf coll PROV_hadMember) = .error (m, c) →
      (avgRun hashFn (.ok g) ai b).errCode = some c ∧
      (c = "MISSING_NUMERIC_VALUE" ∨ c = "NON_NUMERIC_VALUE") ∧
      hasErrorAnn (avgRun hashFn (.ok g) ai b).graph c) ∧
    (∀ coll rest vs us, avgInputs g (Node.uri ai) = coll :: rest →
      g.objectsOf coll PROV_hadMember ≠ [] →
      avgExtract g (g.objectsOf coll PROV_hadMember) = .ok (vs, us) →
      1 < (firstDedup us).length →
      (avgRun hashFn (.ok g) ai b).errCode = some "UNIT_MISMATCH" ∧
      hasErrorAnn (avgRun hashFn (.ok g) ai b).graph "UNIT_MISMATCH") ∧
    (∀ coll rest vs us, avgInputs g (Node.uri ai) = coll :: rest →
      g.objectsOf coll PROV_hadMember ≠ [] →
      avgExtract g (g.objectsOf coll PROV_hadMember) = .ok (vs, us) →
      (firstDedup us).length ≤ 1 → vs = [] →
      (avgRun hashFn (.ok g) ai b).errCode = some "CALCULATION_ERROR") ∧
    (∀ c, (avgRun hashFn (.ok g) ai b).errCode = some c →
      (c = "INPUT_TOO_FEW" ∨ c = "EMPTY_COLLECTION" ∨ c = "MISSING_NUMERIC_VALUE" ∨
       c = "NON_NUMERIC_VALUE" ∨ c = "UNIT_MISMATCH" ∨ c = "CALCULATION_ERROR") ∧
      (avgRun hashFn (.ok g) ai b).result = none ∧
      (∀ s, (s, RDF_type, QUDT_QuantityValue) ∈ (avgRun hashFn (.ok g) ai b).graph ↔
        (s, RDF_type, QUDT_QuantityValue) ∈ g)) ∧
    (∀ coll rest vs us, avgInputs g (Node.uri ai) = coll :: rest →
      g.objectsOf coll PROV_hadMember ≠ [] →
      avgExtract g (g.objectsOf coll PROV_hadMember) = .ok (vs, us) →
      (firstDedup us).length ≤ 1 → vs ≠ [] →
      (avgRun hashFn (.ok g) ai b).errCode = none) := by
  refine ⟨?_, ?_, ?_, ?_, ?_, ?_, ?_⟩
  · intro hinp
    have hcomp : avgCompute g (Node.uri ai) =
        .error ("Expected 1 PROV Collection as input. Found 0", "INPUT_TOO_FEW") := by
      simp only [avgCompute, hinp]
    refine ⟨avgRunParsed_err_code hcomp, ?_⟩
    show hasErrorAnn (avgRunParsed hashFn g ai b).graph _
    rw [avgRunParsed_err_graph hcomp]
    exact hasErrorAnn_add_error
  · intro coll rest hinp hmem
    have hcomp : avgCompute g (Node.uri ai) =
        .error ("Collection has no members (prov:hadMember)", "EMPTY_COLLECTION") := by
      simp only [avgCompute, hinp, hmem, List.length_nil, if_pos]
    refine ⟨avgRunParsed_err_code hcomp, ?_⟩
    show hasErrorAnn (avgRunParsed hashFn g ai b).graph _
    rw [avgRunParsed_err_graph hcomp]
    exact hasErrorAnn_add_error
  · intro coll rest m c hinp hmem hex
    have hml : ¬ (g.objectsOf coll PROV_hadMember).length = 0 := by
      simpa [List.length_eq_zero] using hmem
    have hcomp : avgCompute g (Node.uri ai) = .error (m, c) := by
      simp only [avgCompute, hinp, hml, if_false, hex]
    refine ⟨avgRunParsed_err_code hcomp, avgExtract_error_code hex, ?_⟩
    show hasErrorAnn (avgRunParsed hashFn g ai b).graph _
    rw [avgRunParsed_err_graph hcomp]
    exact hasErrorAnn_add_error
  · intro coll rest vs us hinp hmem hex hgt
    have hml : ¬ (g.objectsOf coll PROV_hadMember).length = 0 := by
      simpa [List.length_eq_zero] using hmem
    have hcomp : avgCompute g (Node.uri ai) =
        .error ("Collection members have different units: "
            ++ String.intercalate ", " ((firstDedup us).map nodeStr),
          "UNIT_MISMATCH") := by
      simp only [avgCompute, hinp, hml, if_false, hex, if_pos hgt]
    refine ⟨avgRunParsed_err_code hcomp, ?_⟩
    show hasErrorAnn (avgRunParsed hashFn g ai b).graph _
    rw [avgRunParsed_err_graph hcomp]
    exact hasErrorAnn_add_error
  · intro coll rest vs us hinp hmem hex hle hvs
    have hml : ¬ (g.objectsOf coll PROV_hadMember).length = 0 := by
      simpa [List.length_eq_zero] using hmem
    have hnu : ¬ 1 < (firstDedup us).length := by omega
    have hcomp : avgCompute g (Node.uri ai) =
        .error ("Failed to calculate mean: no data", "CALCULATION_ERROR") := by
      simp only [avgCompute, hinp, hml, if_false, hex, hnu, hvs, pyMean]
    exact avgRunParsed_err_code hcomp
  · intro c hc
    cases hcomp : avgCompute g (Node.uri ai) with
    | error pr =>
      obtain ⟨m0, c0⟩ := pr
      have hcode : (avgRunParsed hashFn g ai b).errCode = some c0 :=
        avgRunParsed_err_code hcomp
      have hc2 : (avgRunParsed hashFn g ai b).errCode = some c := hc
      rw [hcode] at hc2
      obtain rfl : c0 = c := Option.some.inj hc2
      refine ⟨avgCompute_error_code hcomp, avgRunParsed_err_result hcomp, ?_⟩
      intro s
      show _ ∈ (avgRunParsed hashFn g ai b).graph ↔ _
      rw [avgRunParsed_err_graph hcomp]
      exact add_error_noNewQV
    | ok d =>
      have hc2 : (avgRunParsed hashFn g ai b).errCode = some c := hc
      rw [avgRunParsed_ok_code hcomp] at hc2
      exact Option.noConfusion hc2
  · intro coll rest vs us hinp hmem hex hle hvs
    have hml : ¬ (g.objectsOf coll PROV_hadMember).length = 0 := by
      simpa [List.length_eq_zero] using hmem
    have hnu : ¬ 1 < (firstDedup us).length := by omega
    obtain ⟨v0, vr, rfl⟩ := List.exists_cons_of_ne_nil hvs
    cases hcomp : avgCompute g (Node.uri ai) with
    | error pr =>
      exfalso
      simp only [avgCompute, hinp, hml, if_false, hex, hnu, pyMean] at hcomp
      exact Except.noConfusion hcomp
    | ok d => exact avgRunParsed_ok_code hcomp

/-- Claim C6 witness. -/
theorem C6_witness :
    (avgRun (fun x => x) (.ok gAvg) "http://ex.org/a" 0).errCode = none ∧
    (avgRun (fun x => x)
      (.ok [(Node.uri "http://ex.org/x", RDF_value, Node.litStr "v")])
      "http://ex.org/a" 0).errCode = some "INPUT_TOO_FEW" := by
  constructor
  · exact (C6_avg_error_paths (fun x => x) gAvg "http://ex.org/a" 0).2.2.2.2.2.2
      (Node.uri "http://ex.org/coll") [] [2, 4] [UNIT_MilliM, UNIT_MilliM]
      (by decide) (by decide) (by decide) (by decide) (by decide)
  · exact ((C6_avg_error_paths (fun x => x)
      [(Node.uri "http://ex.org/x", RDF_value, Node.litStr "v")]
      "http://ex.org/a" 0).1 (by decide)).1


/-- Claim C4: over a parsed graph in which the activity `prov:used` a
qualifying collection with at least one member, each member yielding a
float value from `qudt:numericValue` or, failing that, `rdf:value`, with
at most one distinct unit among members, the average script adds a
result `qudt:QuantityValue` whose `qudt:numericValue` equals the sum of
the values divided by the member count, whose `ex:minValue`/`ex:maxValue`
are the actual minimum and maximum of the values, whose `ex:valueCount`
is the member count, which records the "arithmetic mean" computation
method, and which is linked to the activity and the collection. -/
theorem C4_avg_success (hashFn : String → String) (g : Graph) (ai : String) (b : Nat)
    (coll : Node) (rest : List Node) (vs : List ℚ) (us : List Node)
    (hinp : avgInputs g (Node.uri ai) = coll :: rest)
    (hmem : g.objectsOf coll PROV_hadMember ≠ [])
    (hex : avgExtract g (g.objectsOf coll PROV_hadMember) = .ok (vs, us))
    (hle : (firstDedup us).length ≤ 1) :
    (avgRun hashFn (.ok g) ai b).errCode = none ∧
    vs.length = (g.objectsOf coll PROV_hadMember).length ∧
    (avgRun hashFn (.ok g) ai b).result =
      some (create_deterministic_iri "averageResult"
        (create_execution_hash hashFn ai ((avgInputs g (Node.uri ai)).map nodeStr))) ∧
    (∀ res, (avgRun hashFn (.ok g) ai b).result = some res →
      (res, RDF_type, QUDT_QuantityValue) ∈ (avgRun hashFn (.ok g) ai b).graph ∧
      (res, QUDT_numericValue, Node.litNum (vs.sum / (vs.length : ℚ)))
        ∈ (avgRun hashFn (.ok g) ai b).graph ∧
      (res, EX_valueCount, Node.litNum (vs.length : ℚ))
        ∈ (avgRun hashFn (.ok g) ai b).graph ∧
      (res, EX_calculationMethod, Node.litStr "arithmetic mean")
        ∈ (avgRun hashFn (.ok g) ai b).graph ∧
      (∃ mn, (res, EX_minValue, Node.litNum mn) ∈ (avgRun hashFn (.ok g) ai b).graph ∧
        mn ∈ vs ∧ ∀ v ∈ vs, mn ≤ v) ∧
      (∃ mx, (res, EX_maxValue, Node.litNum mx) ∈ (avgRun hashFn (.ok g) ai b).graph ∧
        mx ∈ vs ∧ ∀ v ∈ vs, v ≤ mx) ∧
      (res, PROV_wasGeneratedBy, Node.uri ai) ∈ (avgRun hashFn (.ok g) ai b).graph ∧
      (res, PROV_wasDerivedFrom, coll) ∈ (avgRun hashFn (.ok g) ai b).graph) := by
  have hlen := avgExtract_length hex
  have hml : ¬ (g.objectsOf coll PROV_hadMember).length = 0 := by
    simpa [List.length_eq_zero] using hmem
  have hnu : ¬ 1 < (firstDedup us).length := by omega
  have hvs : vs ≠ [] := by
    intro hc
    rw [hc] at hlen
    exact hml hlen.symm
  obtain ⟨v0, vr, rfl⟩ := List.exists_cons_of_ne_nil hvs
  have hcomp : avgCompute g (Node.uri ai) =
      .ok { collection := coll, values := v0 :: vr,
            unitIri := match (firstDedup us).head? with
                       | some u => some u
                       | none => g.value coll QUDT_unit,
            average := ((v0 :: vr).foldl (· + ·) 0) / ((v0 :: vr).length : ℚ) } := by
    simp only [avgCompute, hinp, hml, if_false, hex, hnu, pyMean]
    all_goals rfl
  have hsum : (v0 :: vr).sum = (v0 :: vr).foldl (· + ·) 0 := by
    rw [foldl_add_eq_sum, zero_add]
  refine ⟨avgRunParsed_ok_code hcomp, hlen, avgRunParsed_ok_result hcomp, ?_⟩
  intro res hres
  have hres2 : (avgRunParsed hashFn g ai b).result = some res := hres
  rw [avgRunParsed_ok_result hcomp] at hres2
  obtain rfl := Option.some.inj hres2
  have hgr : (avgRun hashFn (.ok g) ai b).graph = (avgRunParsed hashFn g ai b).graph := rfl
  rw [hgr, avgRunParsed_ok_graph hcomp]
  refine ⟨?_, ?_, ?_, ?_, ?_, ?_, ?_, ?_⟩
  · exact Graph.mem_addAll.mpr (Or.inr (by simp [avgResultTriples]))
  · rw [hsum]
    exact Graph.mem_addAll.mpr (Or.inr (by simp [avgResultTriples]))
  · exact Graph.mem_addAll.mpr (Or.inr (by simp [avgResultTriples]))
  · exact Graph.mem_addAll.mpr (Or.inr (by simp [avgResultTriples]))
  · refine ⟨pyMin (v0 :: vr), ?_, (pyMin_spec (by simp)).1, (pyMin_spec (by simp)).2⟩
    exact Graph.mem_addAll.mpr (Or.inr (by simp [avgResultTriples]))
  · refine ⟨pyMax (v0 :: vr), ?_, (pyMax_spec (by simp)).1, (pyMax_spec (by simp)).2⟩
    exact Graph.mem_addAll.mpr (Or.inr (by simp [avgResultTriples]))
  · exact Graph.mem_addAll.mpr (Or.inr (by simp [avgResultTriples]))
  · exact Graph.mem_addAll.mpr (Or.inr (by simp [avgResultTriples]))

/-- Claim C4 witness. -/
theorem C4_witness :
    (avgRun (fun _ => "h") (.ok gAvg) "http://ex.org/a" 0).errCode = none ∧
    (Node.uri "#averageResult_h", QUDT_numericValue,
      Node.litNum ((([2, 4] : List ℚ).sum) / ((([2, 4] : List ℚ).length : ℕ) : ℚ)))
      ∈ (avgRun (fun _ => "h") (.ok gAvg) "http://ex.org/a" 0).graph := by
  have h := C4_avg_success (fun _ => "h") gAvg "http://ex.org/a" 0
    (Node.uri "http://ex.org/coll") [] [2, 4] [UNIT_MilliM, UNIT_MilliM]
    (by decide) (by decide) (by decide) (by decide)
  have hmem2 := (h.2.2.2 _ h.2.2.1).2.1
  have heq : create_deterministic_iri "averageResult"
      (create_execution_hash (fun _ => "h") "http://ex.org/a"
        ((avgInputs gAvg (Node.uri "http://ex.org/a")).map nodeStr)) =
      Node.uri "#averageResult_h" := by decide
  rw [heq] at hmem2
  exact ⟨h.1, hmem2⟩


/-- Claim C9: in all three scripts, every domain-validation error branch
over a parsed input returns the input graph with annotation triples
appended — no triple of the parsed input is removed (deletion happens
only in the success-path result cleanup). -/
theorem C9_error_branches_only_add :
    (∀ (g : Graph) (an : String) (b : Nat) (rn c : String),
      (sumRun (.ok g) an b rn).errCode = some c →
      (∀ t ∈ g, t ∈ (sumRun (.ok g) an b rn).graph) ∧
      ∃ tail, (sumRun (.ok g) an b rn).graph = g ++ tail) ∧
    (∀ (hashFn : String → String) (g : Graph) (ai : String) (b : Nat) (c : String),
      (avgRun hashFn (.ok g) ai b).errCode = some c →
      (∀ t ∈ g, t ∈ (avgRun hashFn (.ok g) ai b).graph) ∧
      ∃ tail, (avgRun hashFn (.ok g) ai b).graph = g ++ tail) ∧
    (∀ (lc : String → String → Except String ColData) (hashFn : String → String)
        (g : Graph) (ai : String) (b : Nat) (c : String),
      (csvwRun lc hashFn (.ok g) ai b).errCode = some c →
      (∀ t ∈ g, t ∈ (csvwRun lc hashFn (.ok g) ai b).graph) ∧
      ∃ tail, (csvwRun lc hashFn (.ok g) ai b).graph = g ++ tail) := by
  refine ⟨?_, ?_, ?_⟩
  · intro g an b rn c hc
    have hgr : (sumRun (.ok g) an b rn).graph = (sumRunParsed g an b rn).graph := rfl
    cases hcomp : sumCompute g with
    | error pr =>
      rw [hgr, sumRunParsed_err_graph hcomp]
      obtain ⟨tail, he, _⟩ := add_error_sub
      exact ⟨fun t ht => mem_add_error.mpr (Or.inl ht), tail, he⟩
    | ok d =>
      have hc2 : (sumRunParsed g an b rn).errCode = some c := hc
      rw [sumRunParsed_ok_code hcomp] at hc2
      exact Option.noConfusion hc2
  · intro hashFn g ai b c hc
    have hgr : (avgRun hashFn (.ok g) ai b).graph = (avgRunParsed hashFn g ai b).graph := rfl
    cases hcomp : avgCompute g (Node.uri ai) with
    | error pr =>
      rw [hgr, avgRunParsed_err_graph hcomp]
      obtain ⟨tail, he, _⟩ := add_error_sub
      exact ⟨fun t ht => mem_add_error.mpr (Or.inl ht), tail, he⟩
    | ok d =>
      have hc2 : (avgRunParsed hashFn g ai b).errCode = some c := hc
      rw [avgRunParsed_ok_code hcomp] at hc2
      exact Option.noConfusion hc2
  · intro lc hashFn g ai b c hc
    have hgr : (csvwRun lc hashFn (.ok g) ai b).graph =
      (csvwRunParsed lc hashFn g ai b).graph := rfl
    cases hcomp : csvwCompute lc g (g.subjectsOf BFO_is_input_of (Node.uri ai)) with
    | error pr =>
      rw [hgr, csvwRunParsed_err_graph hcomp]
      obtain ⟨tail, he, _⟩ := add_error_sub
      exact ⟨fun t ht => mem_add_error.mpr (Or.inl ht), tail, he⟩
    | ok d =>
      obtain ⟨cd, cn⟩ := d
      have hc2 : (csvwRunParsed lc hashFn g ai b).errCode = some c := hc
      rw [csvwRunParsed_ok_code hcomp] at hc2
      exact Option.noConfusion hc2

/-- Claim C9 witness. -/
theorem C9_witness :
    ∃ tail,
      (avgRun (fun x => x)
        (.ok [(Node.uri "http://ex.org/x", RDF_value, Node.litStr "v")])
        "http://ex.org/a" 0).graph =
      [(Node.uri "http://ex.org/x", RDF_value, Node.litStr "v")] ++ tail := by
  exact (C9_error_branches_only_add.2.1 (fun x => x)
    [(Node.uri "http://ex.org/x", RDF_value, Node.litStr "v")]
    "http://ex.org/a" 0 "INPUT_TOO_FEW" (by decide)).2

theorem mem_cleanup_not_res {g : Graph} {r : Node} {t : Triple}
    (ht : t ∈ cleanup_previous_result g r) : t.1 ≠ r ∧ t.2.2 ≠ r := by
  unfold cleanup_previous_result at ht
  have := (List.mem_filter.1 ht).2
  simp only [decide_eq_true_eq, not_or] at this
  exact this

theorem avgResultTriples_unit {res act : Node} {d : AvgData} {t : Triple}
    (ht : t ∈ avgResultTriples res act d) (hp : t.2.1 = QUDT_unit) :
    ∃ u, d.unitIri = some u ∧ u.truthy = true ∧ t.2.2 = u := by
  unfold avgResultTriples at ht
  rcases hu : d.unitIri with _ | u
  · rw [hu] at ht
    simp only [List.mem_append, List.mem_cons, List.not_mem_nil, or_false,
      or_assoc] at ht
    rcases ht with rfl | rfl | rfl | rfl | rfl | rfl | rfl | rfl | rfl | rfl <;>
      (simp at hp; exact absurd hp (by decide))
  · rw [hu] at ht
    by_cases htr : u.truthy <;> simp only [htr, if_true, if_false,
      Bool.false_eq_true, List.mem_append, List.mem_cons, List.mem_singleton,
      List.not_mem_nil, or_false, or_assoc] at ht
    · rcases ht with rfl | rfl | rfl | rfl | rfl | rfl | rfl | rfl | rfl | rfl | rfl <;>
        first
          | exact ⟨u, rfl, htr, rfl⟩
          | (simp at hp; exact absurd hp (by decide))
    · rcases ht with rfl | rfl | rfl | rfl | rfl | rfl | rfl | rfl | rfl | rfl <;>
        (simp at hp; exact absurd hp (by decide))


/-- Claim C10 (amended): in the average script, when no collection member
carries a `qudt:unit`, the result takes its unit from the collection's
own `qudt:unit` when that value is present and truthy (Python truthiness:
nonempty text); when it is absent — or present but falsy, such as the
empty-string literal — the result `QuantityValue` is written with no
`qudt:unit` triple at all, and there is no millimeter default, unlike the
sum script. -/
theorem C10_avg_unit_fallback (hashFn : String → String) (g : Graph) (ai : String)
    (b : Nat) (coll : Node) (rest : List Node) (vs : List ℚ)
    (hinp : avgInputs g (Node.uri ai) = coll :: rest)
    (hmem : g.objectsOf coll PROV_hadMember ≠ [])
    (hex : avgExtract g (g.objectsOf coll PROV_hadMember) = .ok (vs, [])) :
    ∀ res, (avgRun hashFn (.ok g) ai b).result = some res →
      (∀ u, g.value coll QUDT_unit = some u → u.truthy = true →
        (res, QUDT_unit, u) ∈ (avgRun hashFn (.ok g) ai b).graph) ∧
      (g.value coll QUDT_unit = none →
        ∀ x, (res, QUDT_unit, x) ∉ (avgRun hashFn (.ok g) ai b).graph) ∧
      (∀ u, g.value coll QUDT_unit = some u → u.truthy = false →
        ∀ x, (res, QUDT_unit, x) ∉ (avgRun hashFn (.ok g) ai b).graph) := by
  have hlen := avgExtract_length hex
  have hml : ¬ (g.objectsOf coll PROV_hadMember).length = 0 := by
    simpa [List.length_eq_zero] using hmem
  have hnu : ¬ 1 < (firstDedup ([] : List Node)).length := by
    simp [firstDedup, firstDedupAux]
  have hvs : vs ≠ [] := by
    intro hc
    rw [hc] at hlen
    exact hml hlen.symm
  obtain ⟨v0, vr, rfl⟩ := List.exists_cons_of_ne_nil hvs
  have hcomp : avgCompute g (Node.uri ai) =
      .ok { collection := coll, values := v0 :: vr,
            unitIri := g.value coll QUDT_unit,
            average := ((v0 :: vr).foldl (· + ·) 0) / ((v0 :: vr).length : ℚ) } := by
    simp only [avgCompute, hinp, hml, if_false, hex, hnu, pyMean, firstDedup,
      firstDedupAux, List.head?, if_false]
    all_goals rfl
  intro res hres
  have hres2 : (avgRunParsed hashFn g ai b).result = some res := hres
  rw [avgRunParsed_ok_result hcomp] at hres2
  obtain rfl := Option.some.inj hres2
  have hgr : (avgRun hashFn (.ok g) ai b).graph = (avgRunParsed hashFn g ai b).graph := rfl
  rw [hgr, avgRunParsed_ok_graph hcomp]
  refine ⟨?_, ?_, ?_⟩
  · intro u hu htr
    exact Graph.mem_addAll.mpr (Or.inr (by simp [avgResultTriples, hu, htr]))
  · intro hu x hx
    rcases Graph.mem_addAll.1 hx with hcl | hts
    · exact (mem_cleanup_not_res hcl).1 rfl
    · obtain ⟨u, hui, _, _⟩ := avgResultTriples_unit hts rfl
      simp only [hu] at hui
      exact Option.noConfusion hui
  · intro u hu hfal x hx
    rcases Graph.mem_addAll.1 hx with hcl | hts
    · exact (mem_cleanup_not_res hcl).1 rfl
    · obtain ⟨w, hui, htr, _⟩ := avgResultTriples_unit hts rfl
      simp only [hu, Option.some.injEq] at hui
      rw [← hui] at htr
      rw [htr] at hfal
      exact Bool.noConfusion hfal

/-- Claim C10 counterexample. -/
theorem C10_counterexample :
    Graph.value gAvgEmptyUnit (Node.uri "http://ex.org/coll") QUDT_unit =
      some (Node.litStr "") ∧
    (avgRun (fun _ => "h") (.ok gAvgEmptyUnit) "http://ex.org/a" 0).errCode = none ∧
    (avgRun (fun _ => "h") (.ok gAvgEmptyUnit) "http://ex.org/a" 0).result =
      some (Node.uri "#averageResult_h") ∧
    (Node.uri "#averageResult_h", QUDT_unit, Node.litStr "") ∉
      (avgRun (fun _ => "h") (.ok gAvgEmptyUnit) "http://ex.org/a" 0).graph ∧
    ((avgRun (fun _ => "h") (.ok gAvgEmptyUnit) "http://ex.org/a" 0).graph.filter
      (fun t => decide (t.1 = Node.uri "#averageResult_h" ∧
        t.2.1 = QUDT_unit))).length = 0 := by
  refine ⟨by decide, by decide, by decide, by decide, by decide⟩

/-- Claim C10 witness. -/
theorem C10_witness :
    (Node.uri "#averageResult_h", QUDT_unit, UNIT_M) ∈
      (avgRun (fun _ => "h") (.ok gAvgCollUnit) "http://ex.org/a" 0).graph ∧
    ∀ x, (Node.uri "#averageResult_h", QUDT_unit, x) ∉
      (avgRun (fun _ => "h") (.ok gAvgEmptyUnit) "http://ex.org/a" 0).graph := by
  constructor
  · have h := C10_avg_unit_fallback (fun _ => "h") gAvgCollUnit "http://ex.org/a" 0
      (Node.uri "http://ex.org/coll") [] [2] (by decide) (by decide) (by decide)
      (Node.uri "#averageResult_h") (by decide)
    exact h.1 UNIT_M (by decide) (by decide)
  · have h := C10_avg_unit_fallback (fun _ => "h") gAvgEmptyUnit "http://ex.org/a" 0
      (Node.uri "http://ex.org/coll") [] [2] (by decide) (by decide) (by decide)
      (Node.uri "#averageResult_h") (by decide)
    exact h.2.2 (Node.litStr "") (by decide) (by decide)

theorem pickStep_fst_of_no_meta {g : Graph} :
    ∀ {inputs : List Node} {acc : Option String × Option String},
      (∀ i ∈ inputs, matchesMeta (labelOf g i) = false) →
      (inputs.foldl (pickStep g) acc).1 = acc.1 := by
  intro inputs
  induction inputs with
  | nil => intro acc _; rfl
  | cons x rest ih =>
    intro acc hno
    rw [List.foldl_cons]
    rw [ih (fun i hi => hno i (List.mem_cons_of_mem _ hi))]
    unfold pickStep
    rw [hno x (List.mem_cons_self _ _)]
    by_cases hcx : matchesCol (labelOf g x) <;> simp [hcx]

theorem pickStep_snd_of_no_col {g : Graph} :
    ∀ {inputs : List Node} {acc : Option String × Option String},
      (∀ i ∈ inputs, matchesMeta (labelOf g i) = true ∨
        matchesCol (labelOf g i) = false) →
      (inputs.foldl (pickStep g) acc).2 = acc.2 := by
  intro inputs
  induction inputs with
  | nil => intro acc _; rfl
  | cons x rest ih =>
    intro acc hno
    rw [List.foldl_cons]
    rw [ih (fun i hi => hno i (List.mem_cons_of_mem _ hi))]
    unfold pickStep
    rcases hno x (List.mem_cons_self _ _) with hmx | hcx
    · simp [hmx]
    · by_cases hmx : matchesMeta (labelOf g x) <;> simp [hmx, hcx]

theorem pickVals_fst_spec {g : Graph} {mIn : Node} :
    ∀ {inputs : List Node} {acc : Option String × Option String},
      mIn ∈ inputs →
      matchesMeta (labelOf g mIn) = true →
      (∀ i ∈ inputs, matchesMeta (labelOf g i) = true → i = mIn) →
      (inputs.foldl (pickStep g) acc).1 = some (pyStr (g.value mIn RDF_value)) := by
  intro inputs
  induction inputs with
  | nil => intro acc hm; exact absurd hm (List.not_mem_nil _)
  | cons x rest ih =>
    intro acc hm hmeta huniq
    by_cases hr : mIn ∈ rest
    · rw [List.foldl_cons]
      exact ih hr hmeta (fun i hi hmi => huniq i (List.mem_cons_of_mem _ hi) hmi)
    · have hx : mIn = x := by
        rcases List.mem_cons.1 hm with h | h
        · exact h
        · exact absurd h hr
      subst hx
      rw [List.foldl_cons]
      have hnometa : ∀ i ∈ rest, matchesMeta (labelOf g i) = false := by
        intro i hi
        by_contra hci
        have := huniq i (List.mem_cons_of_mem _ hi) (by simpa using hci)
        exact hr (this ▸ hi)
      rw [pickStep_fst_of_no_meta hnometa]
      unfold pickStep
      rw [hmeta]
      simp

theorem pickVals_snd_spec {g : Graph} {cIn : Node} :
    ∀ {inputs : List Node} {acc : Option String × Option String},
      cIn ∈ inputs →
      matchesMeta (labelOf g cIn) = false →
      matchesCol (labelOf g cIn) = true →
      (∀ i ∈ inputs, matchesMeta (labelOf g i) = false →
        matchesCol (labelOf g i) = true → i = cIn) →
      (inputs.foldl (pickStep g) acc).2 = some (pyStr (g.value cIn RDF_value)) := by
  intro inputs
  induction inputs with
  | nil => intro acc hm; exact absurd hm (List.not_mem_nil _)
  | cons x rest ih =>
    intro acc hm hnometa hcol huniq
    by_cases hr : cIn ∈ rest
    · rw [List.foldl_cons]
      exact ih hr hnometa hcol (fun i hi h1 h2 => huniq i (List.mem_cons_of_mem _ hi) h1 h2)
    · have hx : cIn = x := by
        rcases List.mem_cons.1 hm with h | h
        · exact h
        · exact absurd h hr
      subst hx
      rw [List.foldl_cons]
      have hnocol : ∀ i ∈ rest, matchesMeta (labelOf g i) = true ∨
          matchesCol (labelOf g i) = false := by
        intro i hi
        by_cases hmi : matchesMeta (labelOf g i)
        · exact Or.inl hmi
        · by_cases hci : matchesCol (labelOf g i)
          · have := huniq i (List.mem_cons_of_mem _ hi) (by simpa using hmi) hci
            exact absurd (this ▸ hi) hr
          · exact Or.inr (by simpa using hci)
      rw [pickStep_snd_of_no_col hnocol]
      unfold pickStep
      rw [hnometa, hcol]
      simp


/-- Claim C8: the CSV-column loader identifies its two scalar inputs by
each input's plan-variable label — a label containing "metadata" or
"uri" (case-insensitively) supplies the metadata-document URI, a label
containing "column" (and not the metadata patterns, which take
precedence) supplies the column name, read from the input's `rdf:value`;
with fewer than two inputs it reports `INPUT_TOO_FEW`, and when either
value remains undetermined or empty it reports `MISSING_INPUT`, in both
cases with an output independent of the network-loading function, i.e.
before any fetch; on the successful identification path the loader is
invoked with exactly the two identified strings. -/
theorem C8_csvw_input_identification (lc lc2 : String → String → Except String ColData)
    (hashFn : String → String) (g : Graph) (ai : String) (b : Nat) :
    ((g.subjectsOf BFO_is_input_of (Node.uri ai)).length < 2 →
      (csvwRun lc hashFn (.ok g) ai b).errCode = some "INPUT_TOO_FEW" ∧
      hasErrorAnn (csvwRun lc hashFn (.ok g) ai b).graph "INPUT_TOO_FEW" ∧
      csvwRun lc hashFn (.ok g) ai b = csvwRun lc2 hashFn (.ok g) ai b) ∧
    (¬ (g.subjectsOf BFO_is_input_of (Node.uri ai)).length < 2 →
      (pyStrOptFalsy (pickVals g (g.subjectsOf BFO_is_input_of (Node.uri ai))).1 ||
        pyStrOptFalsy (pickVals g (g.subjectsOf BFO_is_input_of (Node.uri ai))).2) = true →
      (csvwRun lc hashFn (.ok g) ai b).errCode = some "MISSING_INPUT" ∧
      hasErrorAnn (csvwRun lc hashFn (.ok g) ai b).graph "MISSING_INPUT" ∧
      csvwRun lc hashFn (.ok g) ai b = csvwRun lc2 hashFn (.ok g) ai b) ∧
    (∀ mIn cIn, mIn ∈ g.subjectsOf BFO_is_input_of (Node.uri ai) →
      cIn ∈ g.subjectsOf BFO_is_input_of (Node.uri ai) →
      matchesMeta (labelOf g mIn) = true →
      matchesMeta (labelOf g cIn) = false →
      matchesCol (labelOf g cIn) = true →
      (∀ i ∈ g.subjectsOf BFO_is_input_of (Node.uri ai),
        matchesMeta (labelOf g i) = true → i = mIn) →
      (∀ i ∈ g.subjectsOf BFO_is_input_of (Node.uri ai),
        matchesMeta (labelOf g i) = false → matchesCol (labelOf g i) = true → i = cIn) →
      pickVals g (g.subjectsOf BFO_is_input_of (Node.uri ai)) =
        (some (pyStr (g.value mIn RDF_value)), some (pyStr (g.value cIn RDF_value))) ∧
      (¬ (g.subjectsOf BFO_is_input_of (Node.uri ai)).length < 2 →
        pyStr (g.value mIn RDF_value) ≠ "" → pyStr (g.value cIn RDF_value) ≠ "" →
        csvwCompute lc g (g.subjectsOf BFO_is_input_of (Node.uri ai)) =
          match lc (pyStr (g.value mIn RDF_value)) (pyStr (g.value cIn RDF_value)) with
          | .error e => .error ("Failed to load column from CSVW: " ++ e, "CSVW_LOAD_ERROR")
          | .ok d => .ok (d, pyStr (g.value cIn RDF_value)))) := by
  refine ⟨?_, ?_, ?_⟩
  · intro hlt
    have hcomp : ∀ lcx : String → String → Except String ColData,
        csvwCompute lcx g (g.subjectsOf BFO_is_input_of (Node.uri ai)) =
          .error ("Expected 2 inputs (metadata URI, column name). Found "
              ++ toString (g.subjectsOf BFO_is_input_of (Node.uri ai)).length,
            "INPUT_TOO_FEW") := by
      intro lcx
      simp only [csvwCompute, if_pos hlt]
    refine ⟨csvwRunParsed_err_code (hcomp lc), ?_, ?_⟩
    · show hasErrorAnn (csvwRunParsed lc hashFn g ai b).graph _
      rw [csvwRunParsed_err_graph (hcomp lc)]
      exact hasErrorAnn_add_error
    · show csvwRunParsed lc hashFn g ai b = csvwRunParsed lc2 hashFn g ai b
      rw [csvwRunParsed_err (hcomp lc), csvwRunParsed_err (hcomp lc2)]
  · intro hlen hfal
    have hcomp : ∀ lcx : String → String → Except String ColData,
        csvwCompute lcx g (g.subjectsOf BFO_is_input_of (Node.uri ai)) =
          .error ("Could not determine metadata URI or column name from inputs",
            "MISSING_INPUT") := by
      intro lcx
      simp only [csvwCompute, hlen, if_false, hfal, if_true]
    refine ⟨csvwRunParsed_err_code (hcomp lc), ?_, ?_⟩
    · show hasErrorAnn (csvwRunParsed lc hashFn g ai b).graph _
      rw [csvwRunParsed_err_graph (hcomp lc)]
      exact hasErrorAnn_add_error
    · show csvwRunParsed lc hashFn g ai b = csvwRunParsed lc2 hashFn g ai b
      rw [csvwRunParsed_err (hcomp lc), csvwRunParsed_err (hcomp lc2)]
  · intro mIn cIn hm hc hmeta hcnometa hccol huniqm huniqc
    have hpick : pickVals g (g.subjectsOf BFO_is_input_of (Node.uri ai)) =
        (some (pyStr (g.value mIn RDF_value)), some (pyStr (g.value cIn RDF_value))) := by
      unfold pickVals
      refine Prod.ext ?_ ?_
      · exact pickVals_fst_spec hm hmeta huniqm
      · exact pickVals_snd_spec hc hcnometa hccol huniqc
    refine ⟨hpick, ?_⟩
    intro hlen hmne hcne
    simp only [csvwCompute, hlen, if_false, hpick, pyStrOptFalsy, hmne, hcne,
      Bool.or_self, if_false, Option.getD]
    rfl

/-- Claim C8 witness. -/
theorem C8_witness :
    pickVals gCsvw (gCsvw.subjectsOf BFO_is_input_of (Node.uri "http://ex.org/a")) =
      (some "http://ex.org/meta.json", some "height") ∧
    (csvwRun (fun _ _ => .error "net") (fun _ => "h") (.ok ([] : Graph))
      "http://ex.org/a" 0).errCode = some "INPUT_TOO_FEW" := by
  constructor
  · have h := (C8_csvw_input_identification (fun _ _ => .error "net")
      (fun _ _ => .error "net") (fun _ => "h") gCsvw "http://ex.org/a" 0).2.2
      (Node.uri "http://ex.org/i1") (Node.uri "http://ex.org/i2")
      (by decide) (by decide) (by decide) (by decide) (by decide)
      (by decide) (by decide)
    exact h.1.trans (by decide)
  · exact ((C8_csvw_input_identification (fun _ _ => .error "net")
      (fun _ _ => .error "net") (fun _ => "h") ([] : Graph) "http://ex.org/a" 0).1
      (by decide)).1

/-- Successful `avgCompute` determines the stage outcomes it passed through:
the collection is the first qualifying input, members are nonempty, extraction
succeeded, units did not conflict, and the result fields are the mean, the
deduplicated unit (or the collection fallback). -/
theorem avgCompute_ok_inv {g : Graph} {act : Node} {d : AvgData}
    (h : avgCompute g act = .ok d) :
    ∃ rest vs us,
      avgInputs g act = d.collection :: rest ∧
      ¬ (g.objectsOf d.collection PROV_hadMember).length = 0 ∧
      avgExtract g (g.objectsOf d.collection PROV_hadMember) = .ok (vs, us) ∧
      ¬ 1 < (firstDedup us).length ∧
      d = { collection := d.collection, values := vs,
            unitIri := match (firstDedup us).head? with
                       | some u => some u
                       | none => g.value d.collection QUDT_unit,
            average := (vs.foldl (· + ·) 0) / (vs.length : ℚ) } := by
  unfold avgCompute at h
  split at h
  · exact absurd h (by simp)
  · next coll rest hinp =>
    split at h
    · exact absurd h (by simp)
    · next hml =>
      split at h
      · exact absurd h (by simp)
      · next vs us hex =>
        split at h
        · exact absurd h (by simp)
        · next hnu =>
          split at h
          · exact absurd h (by simp)
          · next a hmean =>
            have hd := Except.ok.inj h
            have hmean2 : a = (vs.foldl (· + ·) 0) / (vs.length : ℚ) := by
              cases vs with
              | nil => exact absurd hmean (by simp [pyMean])
              | cons v r =>
                simp only [pyMean, Option.some.injEq] at hmean
                exact hmean.symm
            subst hd
            refine ⟨rest, vs, us, hinp, hml, hex, hnu, ?_⟩
            rw [← hmean2]
            all_goals rfl

/-- No predicate of a result triple is `prov:used`. -/
theorem avgResultTriples_ne_used {res act : Node} {d : AvgData} {t : Triple}
    (ht : t ∈ avgResultTriples res act d) : t.2.1 ≠ PROV_used := by
  rcases avgResultTriples_pred ht with h | h | h | h | h | h | h | h | h | h <;>
    (rw [h]; decide)

/-- No predicate of a result triple is `p-plan:correspondsToVariable`. -/
theorem avgResultTriples_ne_ctv {res act : Node} {d : AvgData} {t : Triple}
    (ht : t ∈ avgResultTriples res act d) : t.2.1 ≠ PPLAN_ctv := by
  rcases avgResultTriples_pred ht with h | h | h | h | h | h | h | h | h | h <;>
    (rw [h]; decide)

/-- No predicate of a result triple is `prov:hadMember`. -/
theorem avgResultTriples_ne_hadMember {res act : Node} {d : AvgData} {t : Triple}
    (ht : t ∈ avgResultTriples res act d) : t.2.1 ≠ PROV_hadMember := by
  rcases avgResultTriples_pred ht with h | h | h | h | h | h | h | h | h | h <;>
    (rw [h]; decide)

/-- No `rdf:type` result triple types its subject as `prov:Collection`. -/
theorem avgResultTriples_type_ne_Collection {res act : Node} {d : AvgData} {t : Triple}
    (ht : t ∈ avgResultTriples res act d) (hp : t.2.1 = RDF_type) :
    t.2.2 ≠ PROV_Collection := by
  rcases avgResultTriples_type ht hp with h | h <;> (rw [h]; decide)

/-- Claim C2: the average script's result IRI is deterministic - derived from
the hash of the activity IRI concatenated with the sorted input IRIs - and
re-invoking the script on the unmodified output graph (any fresh blank-node
seed) reproduces the run exactly: same result IRI, same graph, no duplicate
triples, because every triple having the result IRI as subject or object is
deleted before the fresh result triples are inserted. Stated for any
successful run on a graph not already mentioning the result IRI. -/
theorem C2_avg_deterministic_idempotent (hashFn : String → String) (g : Graph)
    (ai : String) (b b2 : Nat)
    (hsucc : (avgRun hashFn (.ok g) ai b).errCode = none)
    (hfresh : ∀ t ∈ g,
      t.1 ≠ create_deterministic_iri "averageResult"
        (create_execution_hash hashFn ai ((avgInputs g (Node.uri ai)).map nodeStr)) ∧
      t.2.2 ≠ create_deterministic_iri "averageResult"
        (create_execution_hash hashFn ai ((avgInputs g (Node.uri ai)).map nodeStr))) :
    (avgRun hashFn (.ok g) ai b).result =
      some (create_deterministic_iri "averageResult"
        (create_execution_hash hashFn ai ((avgInputs g (Node.uri ai)).map nodeStr))) ∧
    avgRun hashFn (.ok ((avgRun hashFn (.ok g) ai b).graph)) ai b2 =
      avgRun hashFn (.ok g) ai b := by
  cases hcomp : avgCompute g (Node.uri ai) with
  | error pr =>
    have hc2 : (avgRunParsed hashFn g ai b).errCode = none := hsucc
    rw [avgRunParsed_err_code hcomp] at hc2
    exact Option.noConfusion hc2
  | ok d =>
    obtain ⟨rest, vs, us, hinp, hml, hex, hnu, hd⟩ := avgCompute_ok_inv hcomp
    refine ⟨avgRunParsed_ok_result hcomp, ?_⟩
    have hclean : cleanup_previous_result g
        (create_deterministic_iri "averageResult"
          (create_execution_hash hashFn ai ((avgInputs g (Node.uri ai)).map nodeStr))) = g :=
      cleanup_eq_self hfresh
    have hgr1 : (avgRun hashFn (.ok g) ai b).graph =
        Graph.addAll g (avgResultTriples
          (create_deterministic_iri "averageResult"
            (create_execution_hash hashFn ai ((avgInputs g (Node.uri ai)).map nodeStr)))
          (Node.uri ai) d) := by
      show (avgRunParsed hashFn g ai b).graph = _
      rw [avgRunParsed_ok_graph hcomp, hclean]
    obtain ⟨extra, hext, hsub⟩ :=
      @Graph.addAll_sub (avgResultTriples
        (create_deterministic_iri "averageResult"
          (create_execution_hash hashFn ai ((avgInputs g (Node.uri ai)).map nodeStr)))
        (Node.uri ai) d) g
    have hsubj : ∀ t ∈ extra, t.1 =
        create_deterministic_iri "averageResult"
          (create_execution_hash hashFn ai ((avgInputs g (Node.uri ai)).map nodeStr)) :=
      fun t ht => avgResultTriples_subj (hsub t ht)
    have hused : ∀ t ∈ extra, t.2.1 ≠ PROV_used :=
      fun t ht => avgResultTriples_ne_used (hsub t ht)
    have hctv : ∀ t ∈ extra, t.2.1 ≠ PPLAN_ctv :=
      fun t ht => avgResultTriples_ne_ctv (hsub t ht)
    have hmemp : ∀ t ∈ extra, t.2.1 ≠ PROV_hadMember :=
      fun t ht => avgResultTriples_ne_hadMember (hsub t ht)
    have htypec : ∀ t ∈ extra, t.2.1 = RDF_type → t.2.2 ≠ PROV_Collection :=
      fun t ht => avgResultTriples_type_ne_Collection (hsub t ht)
    have hg2 : (avgRun hashFn (.ok g) ai b).graph = g ++ extra := by
      rw [hgr1, hext]
    have hS1 : avgInputs (g ++ extra) (Node.uri ai) = avgInputs g (Node.uri ai) :=
      avgInputs_congr hused htypec hctv
    have hS2 : Graph.objectsOf (g ++ extra) d.collection PROV_hadMember =
        Graph.objectsOf g d.collection PROV_hadMember :=
      Graph.objectsOf_append_nil (Graph.triplesSP_nil_of_pred hmemp)
    have hcollne : d.collection ≠
        create_deterministic_iri "averageResult"
          (create_execution_hash hashFn ai ((avgInputs g (Node.uri ai)).map nodeStr)) := by
      have hmemIn : d.collection ∈ avgInputs g (Node.uri ai) := by
        rw [hinp]; exact List.mem_cons_self _ _
      have hobj : d.collection ∈ Graph.objectsOf g (Node.uri ai) PROV_used :=
        (List.mem_filter.1 hmemIn).1
      obtain ⟨t, htg, _, _, hto⟩ := mem_objectsOf hobj
      intro hcoll
      exact (hfresh t htg).2 (hto.trans hcoll)
    have hmembne : ∀ m ∈ Graph.objectsOf g d.collection PROV_hadMember,
        m ≠ create_deterministic_iri "averageResult"
          (create_execution_hash hashFn ai ((avgInputs g (Node.uri ai)).map nodeStr)) := by
      intro m hm hmR
      obtain ⟨t, htg, _, _, hto⟩ := mem_objectsOf hm
      exact (hfresh t htg).2 (hto.trans hmR)
    have hS3 : avgExtract (g ++ extra) (Graph.objectsOf g d.collection PROV_hadMember) =
        avgExtract g (Graph.objectsOf g d.collection PROV_hadMember) :=
      avgExtract_congr hsubj hmembne
    have hS4 : Graph.value (g ++ extra) d.collection QUDT_unit =
        Graph.value g d.collection QUDT_unit :=
      Graph.value_append_subj hsubj hcollne
    have hlenvs := avgExtract_length hex
    have hvs : vs ≠ [] := by
      intro hc
      rw [hc] at hlenvs
      exact hml hlenvs.symm
    obtain ⟨v0, vr, rfl⟩ := List.exists_cons_of_ne_nil hvs
    have hcomp2 : avgCompute (g ++ extra) (Node.uri ai) = .ok d := by
      simp only [avgCompute, hS1, hinp, hS2, hml, if_false, hS3, hex, hnu, pyMean, hS4]
      rw [hd]
      all_goals rfl
    have hclean2 : cleanup_previous_result (g ++ extra)
        (create_deterministic_iri "averageResult"
          (create_execution_hash hashFn ai ((avgInputs g (Node.uri ai)).map nodeStr))) = g :=
      cleanup_append_drop hfresh (fun t ht => Or.inl (hsubj t ht))
    rw [hg2]
    show avgRunParsed hashFn (g ++ extra) ai b2 = avgRunParsed hashFn g ai b
    rw [avgRunParsed_ok hcomp2, avgRunParsed_ok hcomp, hS1, hclean, hclean2]

/-- Witness for C2 on the concrete two-member collection fixture. -/
theorem C2_witness :
    (avgRun (fun _ => "h") (.ok gAvg) "http://ex.org/a" 0).errCode = none ∧
    ((avgRun (fun _ => "h") (.ok gAvg) "http://ex.org/a" 0).result =
        some (create_deterministic_iri "averageResult"
          (create_execution_hash (fun _ => "h") "http://ex.org/a"
            ((avgInputs gAvg (Node.uri "http://ex.org/a")).map nodeStr))) ∧
      avgRun (fun _ => "h")
          (.ok ((avgRun (fun _ => "h") (.ok gAvg) "http://ex.org/a" 0).graph))
          "http://ex.org/a" 1 =
        avgRun (fun _ => "h") (.ok gAvg) "http://ex.org/a" 0) :=
  ⟨by rfl,
   C2_avg_deterministic_idempotent (fun _ => "h") gAvg "http://ex.org/a" 0 1
     (by rfl) (by decide)⟩
